import Mathlib

/-!
Verification of the `embedded-cfu` CFU protocol library against its
natural-language specification.

The definitions below are a shallow embedding of the Rust sources:
  * `src/protocol_definitions.rs` — the wire codec (frame structs,
    enums, and the `From`/`TryFrom` byte conversions);
  * `src/host.rs` — the host update engine (`CfuUpdater::write_data_chunks`
    and the three `process_*_data_block` helpers);
  * `src/client.rs` — the default `CfuReceiveContent` implementations.

Machine integers (`u8`/`u16`/`u32`/`usize`) are modelled as `Nat`; where the
Rust code performs a narrowing cast (`as u16`) the model takes the value
modulo `2^16` explicitly.  Byte buffers `[u8; N]` are modelled as `List Nat`
(with each byte `< 256` where a theorem needs it).  Fallible conversions
(`TryFrom`) return `Except ConversionError`.
-/

namespace EmbeddedCfu

/-! ### Byte-buffer helpers

`byteAt b i` is `b[i]` (out-of-range reads return 0; all modelled reads are
in range for buffers of the stated length).  `le16`/`le32` are
`u16::to_le_bytes` / `u32::to_le_bytes`; `fromLe16`/`fromLe32` are
`u16::from_le_bytes` / `u32::from_le_bytes`. -/

def byteAt (b : List Nat) (i : Nat) : Nat := b.getD i 0

def le16 (x : Nat) : List Nat := [x % 256, x / 256 % 256]

def le32 (x : Nat) : List Nat :=
  [x % 256, x / 256 % 256, x / 65536 % 256, x / 16777216 % 256]

def fromLe16 (b0 b1 : Nat) : Nat := b0 + 256 * b1

def fromLe32 (b0 b1 b2 b3 : Nat) : Nat :=
  b0 + 256 * b1 + 65536 * b2 + 16777216 * b3

/-! ### Error types (`protocol_definitions.rs`, `lib.rs`) -/

/-- `enum ConversionError` -/
inductive ConversionError where
  | ByteConversionError
  | ValueOutOfRange
  deriving DecidableEq, Repr

/-- `enum CfuWriterError` (`lib.rs`) -/
inductive CfuWriterError where
  | StorageError
  | ByteConversionError
  | Other
  deriving DecidableEq, Repr

/-! ### Enums of the wire protocol -/

/-- `enum HostToken { Driver = 0xA0, Tool = 0xB0, VendorSpecific(u8) }` -/
inductive HostToken where
  | Driver
  | Tool
  | VendorSpecific (val : Nat)
  deriving DecidableEq, Repr

/-- `impl From<HostToken> for u8` -/
def HostToken.toByte : HostToken → Nat
  | .Driver => 0xA0
  | .Tool => 0xB0
  | .VendorSpecific val => val

/-- `impl TryFrom<u8> for HostToken` — never fails: the catch-all is
vendor-specific. -/
def HostToken.tryFrom (value : Nat) : Except ConversionError HostToken :=
  match value with
  | 0xA0 => .ok .Driver
  | 0xB0 => .ok .Tool
  | val => .ok (.VendorSpecific val)

/-- `enum SpecialComponentIds { Command = 0xFE, Info = 0xFF }` -/
inductive SpecialComponentIds where
  | Command
  | Info
  deriving DecidableEq, Repr

def SpecialComponentIds.toByte : SpecialComponentIds → Nat
  | .Command => 0xFE
  | .Info => 0xFF

/-- `impl TryFrom<u8> for SpecialComponentIds` -/
def SpecialComponentIds.tryFrom (value : Nat) : Except ConversionError SpecialComponentIds :=
  match value with
  | 0xFE => .ok .Command
  | 0xFF => .ok .Info
  | _ => .error .ValueOutOfRange

/-- `enum OfferInformationCodeValues` -/
inductive OfferInformationCodeValues where
  | StartEntireTransaction
  | StartOfferList
  | EndOfferList
  | VendorSpecific (val : Nat)
  deriving DecidableEq, Repr

/-- `impl From<OfferInformationCodeValues> for u8` -/
def OfferInformationCodeValues.toByte : OfferInformationCodeValues → Nat
  | .StartEntireTransaction => 0x00
  | .StartOfferList => 0x01
  | .EndOfferList => 0x02
  | .VendorSpecific val => val

/-- `enum OfferCommandExtendedCodeValues` -/
inductive OfferCommandExtendedCodeValues where
  | OfferNotifyOnReady
  | VendorSpecific (val : Nat)
  deriving DecidableEq, Repr

/-- `impl From<OfferCommandExtendedCodeValues> for u8` -/
def OfferCommandExtendedCodeValues.toByte : OfferCommandExtendedCodeValues → Nat
  | .OfferNotifyOnReady => 0x01
  | .VendorSpecific val => val

/-- `impl From<u8> for OfferCommandExtendedCodeValues` — total. -/
def OfferCommandExtendedCodeValues.ofByte (value : Nat) : OfferCommandExtendedCodeValues :=
  match value with
  | 0x01 => .OfferNotifyOnReady
  | val => .VendorSpecific val

/-- `enum OfferRejectReason` -/
inductive OfferRejectReason where
  | OldFw
  | InvalidComponent
  | SwapPending
  | VendorSpecific (val : Nat)
  deriving DecidableEq, Repr

/-- `impl From<OfferRejectReason> for u8` -/
def OfferRejectReason.toByte : OfferRejectReason → Nat
  | .OldFw => 0x00
  | .InvalidComponent => 0x01
  | .SwapPending => 0x02
  | .VendorSpecific val => val

/-- `impl TryFrom<u8> for OfferRejectReason`: `0x00..0x02` named,
`val >= 0xE0` vendor-specific, anything else `ValueOutOfRange`. -/
def OfferRejectReason.tryFrom (value : Nat) : Except ConversionError OfferRejectReason :=
  match value with
  | 0x00 => .ok .OldFw
  | 0x01 => .ok .InvalidComponent
  | 0x02 => .ok .SwapPending
  | val => if val ≥ 0xE0 then .ok (.VendorSpecific val) else .error .ValueOutOfRange

/-- `enum OfferStatus` -/
inductive OfferStatus where
  | Skip
  | Accept
  | Reject
  | Busy
  | CommandReady
  | CmdNotSupported
  deriving DecidableEq, Repr

/-- `impl From<OfferStatus> for u8` -/
def OfferStatus.toByte : OfferStatus → Nat
  | .Skip => 0x00
  | .Accept => 0x01
  | .Reject => 0x02
  | .Busy => 0x03
  | .CommandReady => 0x04
  | .CmdNotSupported => 0xFF

/-- `impl TryFrom<u8> for OfferStatus` -/
def OfferStatus.tryFrom (value : Nat) : Except ConversionError OfferStatus :=
  match value with
  | 0x00 => .ok .Skip
  | 0x01 => .ok .Accept
  | 0x02 => .ok .Reject
  | 0x03 => .ok .Busy
  | 0x04 => .ok .CommandReady
  | 0xFF => .ok .CmdNotSupported
  | _ => .error .ByteConversionError

/-- `enum CfuUpdateContentResponseStatus` -/
inductive CfuUpdateContentResponseStatus where
  | Success
  | ErrorPrepare
  | ErrorWrite
  | ErrorComplete
  | ErrorVerify
  | ErrorCrc
  | ErrorSignature
  | ErrorVersion
  | SwapPending
  | ErrorInvalidAddr
  | ErrorNoOffer
  | ErrorInvalid
  deriving DecidableEq, Repr

/-- `impl From<CfuUpdateContentResponseStatus> for u8` -/
def CfuUpdateContentResponseStatus.toByte : CfuUpdateContentResponseStatus → Nat
  | .Success => 0x00
  | .ErrorPrepare => 0x01
  | .ErrorWrite => 0x02
  | .ErrorComplete => 0x03
  | .ErrorVerify => 0x04
  | .ErrorCrc => 0x05
  | .ErrorSignature => 0x06
  | .ErrorVersion => 0x07
  | .SwapPending => 0x08
  | .ErrorInvalidAddr => 0x09
  | .ErrorNoOffer => 0x0A
  | .ErrorInvalid => 0x0B

/-- `impl TryFrom<u8> for CfuUpdateContentResponseStatus` -/
def CfuUpdateContentResponseStatus.tryFrom (value : Nat) :
    Except ConversionError CfuUpdateContentResponseStatus :=
  match value with
  | 0x00 => .ok .Success
  | 0x01 => .ok .ErrorPrepare
  | 0x02 => .ok .ErrorWrite
  | 0x03 => .ok .ErrorComplete
  | 0x04 => .ok .ErrorVerify
  | 0x05 => .ok .ErrorCrc
  | 0x06 => .ok .ErrorSignature
  | 0x07 => .ok .ErrorVersion
  | 0x08 => .ok .SwapPending
  | 0x09 => .ok .ErrorInvalidAddr
  | 0x0A => .ok .ErrorNoOffer
  | 0x0B => .ok .ErrorInvalid
  | _ => .error .ByteConversionError

/-- `enum GetFwVerRespHeaderByte3` with `PROTOCOL_VER = 0b0010`:
`NoSpecialFlags = 0x20`, `ExtensionFlagSet = 0x21`. -/
inductive GetFwVerRespHeaderByte3 where
  | NoSpecialFlags
  | ExtensionFlagSet
  deriving DecidableEq, Repr

def GetFwVerRespHeaderByte3.toByte : GetFwVerRespHeaderByte3 → Nat
  | .NoSpecialFlags => 0x20
  | .ExtensionFlagSet => 0x21

/-- `enum CfuProtocolError` (`protocol_definitions.rs`).  `host.rs` spells the
content-status variant `CfuResponseError`; `protocol_definitions.rs` (the file
in `src/`) names it `CfuContentUpdateResponseError`. -/
inductive CfuProtocolError where
  | UpdateError (cmpt : Nat)
  | TimeoutError (cmpt : Nat)
  | InvalidBlockTransition
  | BadResponse
  | WriterError (e : CfuWriterError)
  | CfuContentUpdateResponseError (s : CfuUpdateContentResponseStatus)
  | CfuOfferStatusError (s : OfferStatus)
  deriving DecidableEq, Repr

/-! ### Frame structures and their byte conversions -/

/-- `struct FwVersion { variant: u8, minor: u16, major: u8 }` -/
structure FwVersion where
  variant : Nat
  minor : Nat
  major : Nat
  deriving DecidableEq, Repr

/-- `FwVersion::default()` (all fields zero). -/
def FwVersion.default : FwVersion := ⟨0, 0, 0⟩

def MAX_CMPT_COUNT : Nat := 7

instance : NeZero MAX_CMPT_COUNT := ⟨by decide⟩

def DEFAULT_DATA_LENGTH : Nat := 52

def FW_UPDATE_FLAG_FIRST_BLOCK : Nat := 0x80

def FW_UPDATE_FLAG_LAST_BLOCK : Nat := 0x40

/-- `struct FwUpdateContentHeader { flags: u8, data_length: u8, sequence_num:
u16, firmware_address: u32 }` -/
structure FwUpdateContentHeader where
  flags : Nat
  data_length : Nat
  sequence_num : Nat
  firmware_address : Nat
  deriving DecidableEq, Repr

/-- `struct FwUpdateContentCommand { header, data: [u8; 52] }` -/
structure FwUpdateContentCommand where
  header : FwUpdateContentHeader
  data : List Nat
  deriving DecidableEq, Repr

/-- `impl From<&FwUpdateContentCommand> for [u8; 60]` -/
def FwUpdateContentCommand.toBytes (command : FwUpdateContentCommand) : List Nat :=
  [command.header.flags % 256, command.header.data_length % 256]
    ++ le16 command.header.sequence_num
    ++ le32 command.header.firmware_address
    ++ command.data

/-- `impl TryFrom<&[u8; 60]> for FwUpdateContentCommand` -/
def FwUpdateContentCommand.fromBytes (bytes : List Nat) :
    Except ConversionError FwUpdateContentCommand :=
  let flags := byteAt bytes 0
  let data_length := byteAt bytes 1
  let sequence_num := fromLe16 (byteAt bytes 2) (byteAt bytes 3)
  let firmware_address :=
    fromLe32 (byteAt bytes 4) (byteAt bytes 5) (byteAt bytes 6) (byteAt bytes 7)
  let data := bytes.drop 8
  .ok { header := { flags, data_length, sequence_num, firmware_address }, data }

/-- `struct FwUpdateContentResponse { sequence: u16, _reserved0: u16, status,
_reserved1: [u8; 11] }` -/
structure FwUpdateContentResponse where
  sequence : Nat
  _reserved0 : Nat
  status : CfuUpdateContentResponseStatus
  _reserved1 : List Nat
  deriving DecidableEq, Repr

/-- `FwUpdateContentResponse::new(sequence, status)` -/
def FwUpdateContentResponse.new (sequence : Nat) (status : CfuUpdateContentResponseStatus) :
    FwUpdateContentResponse :=
  { sequence, status, _reserved0 := 0, _reserved1 := List.replicate 11 0 }

/-- `impl From<&FwUpdateContentResponse> for [u8; 16]` -/
def FwUpdateContentResponse.toBytes (response : FwUpdateContentResponse) : List Nat :=
  le16 response.sequence
    ++ [0, 0]                   -- response._reserved0 is reserved
    ++ [response.status.toByte]
    ++ List.replicate 11 0      -- response._reserved1 is reserved

/-- `impl TryFrom<[u8; 16]> for FwUpdateContentResponse` -/
def FwUpdateContentResponse.fromBytes (buffer : List Nat) :
    Except ConversionError FwUpdateContentResponse :=
  match CfuUpdateContentResponseStatus.tryFrom (byteAt buffer 4) with
  | .error _ => .error .ByteConversionError
  | .ok status =>
    .ok { sequence := fromLe16 (byteAt buffer 0) (byteAt buffer 1)
          _reserved0 := 0                     -- buffer[2..4] is reserved
          status
          _reserved1 := List.replicate 11 0 } -- buffer[5..16] is reserved

/-- `struct FwUpdateOfferResponse` (16 bytes on the wire). -/
structure FwUpdateOfferResponse where
  _reserved0 : List Nat
  token : HostToken
  _reserved1 : List Nat
  reject_reason : OfferRejectReason
  _reserved2 : List Nat
  status : OfferStatus
  _reserved3 : List Nat
  deriving DecidableEq, Repr

/-- `FwUpdateOfferResponse::new_accept(token)` -/
def FwUpdateOfferResponse.new_accept (token : HostToken) : FwUpdateOfferResponse :=
  { token
    reject_reason := .SwapPending -- not used for success cases
    status := .Accept
    _reserved0 := List.replicate 3 0
    _reserved1 := List.replicate 4 0
    _reserved2 := List.replicate 3 0
    _reserved3 := List.replicate 3 0 }

/-- `FwUpdateOfferResponse::new_with_failure(token, reject_reason, status)` -/
def FwUpdateOfferResponse.new_with_failure (token : HostToken)
    (reject_reason : OfferRejectReason) (status : OfferStatus) : FwUpdateOfferResponse :=
  { token, reject_reason, status
    _reserved0 := List.replicate 3 0
    _reserved1 := List.replicate 4 0
    _reserved2 := List.replicate 3 0
    _reserved3 := List.replicate 3 0 }

/-- `impl From<&FwUpdateOfferResponse> for [u8; 16]` -/
def FwUpdateOfferResponse.toBytes (response : FwUpdateOfferResponse) : List Nat :=
  [0, 0, 0]                      -- response._reserved0 is reserved
    ++ [response.token.toByte]
    ++ [0, 0, 0, 0]              -- response._reserved1 is reserved
    ++ [response.reject_reason.toByte]
    ++ [0, 0, 0]                 -- response._reserved2 is reserved
    ++ [response.status.toByte]
    ++ [0, 0, 0]                 -- response._reserved3 is reserved

/-- `impl TryFrom<[u8; 16]> for FwUpdateOfferResponse` -/
def FwUpdateOfferResponse.fromBytes (buffer : List Nat) :
    Except ConversionError FwUpdateOfferResponse :=
  match HostToken.tryFrom (byteAt buffer 3) with
  | .error _ => .error .ByteConversionError
  | .ok token =>
    match OfferRejectReason.tryFrom (byteAt buffer 8) with
    | .error _ => .error .ByteConversionError
    | .ok reject_reason =>
      match OfferStatus.tryFrom (byteAt buffer 12) with
      | .error _ => .error .ByteConversionError
      | .ok status =>
        .ok { token, reject_reason, status
              _reserved0 := List.replicate 3 0
              _reserved1 := List.replicate 4 0
              _reserved2 := List.replicate 3 0
              _reserved3 := List.replicate 3 0 }

/-- `struct UpdateOfferComponentInfoByte1 { packed_byte: u8 }` -/
structure UpdateOfferComponentInfoByte1 where
  packed_byte : Nat
  deriving DecidableEq, Repr

/-- `struct UpdateOfferComponentInfo` -/
structure UpdateOfferComponentInfo where
  segment_number : Nat
  byte1 : UpdateOfferComponentInfoByte1
  component_id : Nat
  token : HostToken
  deriving DecidableEq, Repr

/-- `struct FwUpdateOffer` -/
structure FwUpdateOffer where
  component_info : UpdateOfferComponentInfo
  firmware_version : FwVersion
  vendor_specific : Nat
  misc_and_protocol_version : Nat
  deriving DecidableEq, Repr

/-- `impl From<&FwUpdateOffer> for [u8; 32]`: bytes 0..16 carry the fields,
bytes 16..32 stay at their `[0u8; 32]` initialisation. -/
def FwUpdateOffer.toBytes (command : FwUpdateOffer) : List Nat :=
  [command.component_info.segment_number % 256,
   command.component_info.byte1.packed_byte % 256,
   command.component_info.component_id % 256,
   command.component_info.token.toByte]
    ++ [command.firmware_version.variant % 256]   -- bytes[4] = variant
    ++ le16 command.firmware_version.minor        -- bytes[5..7] = minor LE
    ++ [command.firmware_version.major % 256]     -- bytes[7] = major
    ++ le32 command.vendor_specific               -- bytes[8..12]
    ++ le32 command.misc_and_protocol_version     -- bytes[12..16]
    ++ List.replicate 16 0                        -- bytes[16..32] untouched

/-- `impl TryFrom<&[u8; 32]> for FwUpdateOffer` -/
def FwUpdateOffer.fromBytes (bytes : List Nat) : Except ConversionError FwUpdateOffer :=
  match HostToken.tryFrom (byteAt bytes 3) with
  | .error _ => .error .ByteConversionError
  | .ok token =>
    .ok { component_info :=
            { segment_number := byteAt bytes 0
              byte1 := { packed_byte := byteAt bytes 1 }
              component_id := byteAt bytes 2
              token }
          firmware_version :=
            { major := byteAt bytes 7
              minor := fromLe16 (byteAt bytes 5) (byteAt bytes 6)
              variant := byteAt bytes 4 }
          vendor_specific :=
            fromLe32 (byteAt bytes 8) (byteAt bytes 9) (byteAt bytes 10) (byteAt bytes 11)
          misc_and_protocol_version :=
            fromLe32 (byteAt bytes 12) (byteAt bytes 13) (byteAt bytes 14) (byteAt bytes 15) }

/-- `struct OfferInformationComponentInfo` -/
structure OfferInformationComponentInfo where
  code : OfferInformationCodeValues
  _reserved : Nat
  component_id : SpecialComponentIds
  token : HostToken
  deriving DecidableEq, Repr

/-- `OfferInformationComponentInfo::new(token, component_id, code)` -/
def OfferInformationComponentInfo.new (token : HostToken)
    (component_id : SpecialComponentIds) (code : OfferInformationCodeValues) :
    OfferInformationComponentInfo :=
  { code, _reserved := 0, component_id, token }

/-- `struct FwUpdateOfferInformation` -/
structure FwUpdateOfferInformation where
  component_info : OfferInformationComponentInfo
  _reserved0 : Nat
  _reserved1 : Nat
  _reserved2 : Nat
  deriving DecidableEq, Repr

/-- `FwUpdateOfferInformation::new(component_info)` -/
def FwUpdateOfferInformation.new (component_info : OfferInformationComponentInfo) :
    FwUpdateOfferInformation :=
  { component_info, _reserved0 := 0, _reserved1 := 0, _reserved2 := 0 }

/-- `impl From<&FwUpdateOfferInformation> for [u8; 16]` -/
def FwUpdateOfferInformation.toBytes (info : FwUpdateOfferInformation) : List Nat :=
  [info.component_info.code.toByte,
   0,                                          -- component_info._reserved is reserved
   info.component_info.component_id.toByte,
   info.component_info.token.toByte]
    ++ List.replicate 4 0                      -- info._reserved0 is reserved
    ++ List.replicate 4 0                      -- info._reserved1 is reserved
    ++ List.replicate 4 0                      -- info._reserved2 is reserved

/-- Continuation of `TryFrom<&[u8; 16]> for FwUpdateOfferInformation` after
the `code` match: byte 2 must be `0xFF` (`Info`), byte 1 is ignored (`reserved
= 0`), byte 3 is the token. -/
def FwUpdateOfferInformation.fromBytesRest (bytes : List Nat)
    (code : OfferInformationCodeValues) :
    Except ConversionError FwUpdateOfferInformation :=
  match SpecialComponentIds.tryFrom (byteAt bytes 2) with
  | .error _ => .error .ValueOutOfRange
  | .ok component_id =>
    if component_id ≠ .Info then .error .ValueOutOfRange
    else
      match HostToken.tryFrom (byteAt bytes 3) with
      | .error e => .error e
      | .ok token =>
        .ok { component_info :=
                { code, _reserved := 0, component_id, token }
              _reserved0 := 0, _reserved1 := 0, _reserved2 := 0 }

/-- `impl TryFrom<&[u8; 16]> for FwUpdateOfferInformation`: byte 0 must be
one of the three defined codes (vendor-specific bytes are REJECTED with
`ValueOutOfRange`); byte 2 must be `0xFF` (`Info`). -/
def FwUpdateOfferInformation.fromBytes (bytes : List Nat) :
    Except ConversionError FwUpdateOfferInformation :=
  match byteAt bytes 0 with
  | 0x00 => FwUpdateOfferInformation.fromBytesRest bytes .StartEntireTransaction
  | 0x01 => FwUpdateOfferInformation.fromBytesRest bytes .StartOfferList
  | 0x02 => FwUpdateOfferInformation.fromBytesRest bytes .EndOfferList
  | _ => .error .ValueOutOfRange

/-- `struct OfferExtendedComponentInfo` -/
structure OfferExtendedComponentInfo where
  code : OfferCommandExtendedCodeValues
  _reserved : Nat
  component_id : SpecialComponentIds
  token : HostToken
  deriving DecidableEq, Repr

/-- `OfferExtendedComponentInfo::new(token, component_id, code)` -/
def OfferExtendedComponentInfo.new (token : HostToken)
    (component_id : SpecialComponentIds) (code : OfferCommandExtendedCodeValues) :
    OfferExtendedComponentInfo :=
  { code, _reserved := 0, component_id, token }

/-- `struct FwUpdateOfferExtended` -/
structure FwUpdateOfferExtended where
  component_info : OfferExtendedComponentInfo
  _reserved0 : Nat
  _reserved1 : Nat
  _reserved2 : Nat
  deriving DecidableEq, Repr

/-- `FwUpdateOfferExtended::new(component_info)` -/
def FwUpdateOfferExtended.new (component_info : OfferExtendedComponentInfo) :
    FwUpdateOfferExtended :=
  { component_info, _reserved0 := 0, _reserved1 := 0, _reserved2 := 0 }

/-- `impl From<&FwUpdateOfferExtended> for [u8; 16]` -/
def FwUpdateOfferExtended.toBytes (command : FwUpdateOfferExtended) : List Nat :=
  [command.component_info.code.toByte,
   0,                                             -- component_info._reserved is reserved
   command.component_info.component_id.toByte,
   command.component_info.token.toByte]
    ++ List.replicate 4 0                         -- command._reserved0 is reserved
    ++ List.replicate 4 0                         -- command._reserved1 is reserved
    ++ List.replicate 4 0                         -- command._reserved2 is reserved

/-- `impl TryFrom<&[u8; 16]> for FwUpdateOfferExtended`: byte 0 decodes
totally (`From<u8>`), byte 2 must be `0xFE` (`Command`). -/
def FwUpdateOfferExtended.fromBytes (bytes : List Nat) :
    Except ConversionError FwUpdateOfferExtended :=
  let code := OfferCommandExtendedCodeValues.ofByte (byteAt bytes 0)
  match SpecialComponentIds.tryFrom (byteAt bytes 2) with
  | .error _ => .error .ValueOutOfRange
  | .ok component_id =>
    if component_id ≠ .Command then .error .ValueOutOfRange
    else
      match HostToken.tryFrom (byteAt bytes 3) with
      | .error e => .error e
      | .ok token =>
        .ok { component_info := { code, _reserved := 0, component_id, token }
              _reserved0 := 0, _reserved1 := 0, _reserved2 := 0 }

/-- `struct GetFwVersionResponseHeader` -/
structure GetFwVersionResponseHeader where
  component_count : Nat
  _reserved : Nat
  byte3 : GetFwVerRespHeaderByte3
  deriving DecidableEq, Repr

/-- `GetFwVersionResponseHeader::new(component_count, byte3)` -/
def GetFwVersionResponseHeader.new (component_count : Nat)
    (byte3 : GetFwVerRespHeaderByte3) : GetFwVersionResponseHeader :=
  { component_count, _reserved := 0, byte3 }

/-- `struct FwVerComponentInfo` -/
structure FwVerComponentInfo where
  fw_version : FwVersion
  packed_byte : Nat
  component_id : Nat
  vendor_specific1 : Nat
  deriving DecidableEq, Repr

/-- `FwVerComponentInfo::default()` = `new(FwVersion::default(), 0)`. -/
def FwVerComponentInfo.default : FwVerComponentInfo :=
  { fw_version := FwVersion.default, packed_byte := 0, component_id := 0,
    vendor_specific1 := 0 }

/-- `struct GetFwVersionResponse { header, component_info: [FwVerComponentInfo; 7] }` -/
structure GetFwVersionResponse where
  header : GetFwVersionResponseHeader
  component_info : Fin MAX_CMPT_COUNT → FwVerComponentInfo

/-- One loop iteration of the `GetFwVersionResponse` serializer: the 8 bytes
written at `offset = 4 + 8*i` for component `i` (`packed_byte`,
`component_id`, `vendor_specific1` LE, `major`, `minor` LE, `variant`). -/
def FwVerComponentInfo.toBytes (component : FwVerComponentInfo) : List Nat :=
  [component.packed_byte % 256, component.component_id % 256]
    ++ le16 component.vendor_specific1
    ++ [component.fw_version.major % 256]
    ++ le16 component.fw_version.minor
    ++ [component.fw_version.variant % 256]

/-- `impl TryFrom<&GetFwVersionResponse> for [u8; 60]`: writes the 4 header
bytes then `component_count` 8-byte component entries into a zeroed buffer.
The loop fails with `ByteConversionError` when `component_count > 7`
(`component_info.get(i)` returns `None` at `i = 7`); otherwise every indexed
write is in bounds and the conversion succeeds. -/
def GetFwVersionResponse.toBytes (response : GetFwVersionResponse) :
    Except ConversionError (List Nat) :=
  if response.header.component_count ≤ MAX_CMPT_COUNT then
    let entries :=
      ((List.ofFn fun i : Fin MAX_CMPT_COUNT => (response.component_info i).toBytes).take
        response.header.component_count).flatten
    .ok ([response.header.component_count % 256]
      ++ le16 response.header._reserved
      ++ [response.header.byte3.toByte]
      ++ entries
      ++ List.replicate (56 - 8 * response.header.component_count) 0)
  else .error .ByteConversionError

/-- One loop iteration of the `GetFwVersionResponse` deserializer: parse the
8-byte component entry at `offset`. -/
def FwVerComponentInfo.parseAt (bytes : List Nat) (offset : Nat) : FwVerComponentInfo :=
  { packed_byte := byteAt bytes offset
    component_id := byteAt bytes (offset + 1)
    vendor_specific1 := fromLe16 (byteAt bytes (offset + 2)) (byteAt bytes (offset + 3))
    fw_version :=
      { major := byteAt bytes (offset + 4)
        minor := fromLe16 (byteAt bytes (offset + 5)) (byteAt bytes (offset + 6))
        variant := byteAt bytes (offset + 7) }
  }

/-- Continuation of `TryFrom<&[u8; 60]> for GetFwVersionResponse` after the
`byte3` match: parse `component_count` component entries, leaving the rest of
the `[FwVerComponentInfo::default(); 7]` array at its default. -/
def GetFwVersionResponse.fromBytesRest (bytes : List Nat)
    (component_count _reserved : Nat) (byte3 : GetFwVerRespHeaderByte3) :
    Except ConversionError GetFwVersionResponse :=
  .ok { header := { component_count, _reserved, byte3 }
        component_info := fun i =>
          if i.val < component_count then FwVerComponentInfo.parseAt bytes (4 + 8 * i.val)
          else FwVerComponentInfo.default }

/-- `impl TryFrom<&[u8; 60]> for GetFwVersionResponse`: fails with
`ValueOutOfRange` when `component_count > 7` or byte 3 is not `0x20`/`0x21`;
entries beyond `component_count` keep `FwVerComponentInfo::default()`. -/
def GetFwVersionResponse.fromBytes (bytes : List Nat) :
    Except ConversionError GetFwVersionResponse :=
  let component_count := byteAt bytes 0
  if component_count > MAX_CMPT_COUNT then .error .ValueOutOfRange
  else
    let _reserved := fromLe16 (byteAt bytes 1) (byteAt bytes 2)
    match byteAt bytes 3 with
    | 0x20 => GetFwVersionResponse.fromBytesRest bytes component_count _reserved .NoSpecialFlags
    | 0x21 => GetFwVersionResponse.fromBytesRest bytes component_count _reserved .ExtensionFlagSet
    | _ => .error .ValueOutOfRange

/-! ### Host update engine (`host.rs`, `impl CfuUpdateContent for CfuUpdater`)

The engine talks to the component through `CfuWriter::cfu_write_read`
(transmit a request, receive the paired response).  The model abstracts the
transport: the response deserialized from the initial 16-byte
`updateoffercmd_bytes` round trip is `peer0`, and the response deserialized
after sending the content command for chunk `i` is `peer i`.  Each model
function returns both the list of content commands the engine sent, in send
order, and the function result, so that ordering claims can be stated over
the trace.

`host.rs` builds content headers with `FwUpdateFlags::FirstBlock` /
`FwUpdateFlags::None` / `FwUpdateFlags::LastBlock`; on the wire these are the
flag bytes `0x80` / `0x00` / `0x40` (`FW_UPDATE_FLAG_FIRST_BLOCK` /
`FW_UPDATE_FLAG_LAST_BLOCK` in `protocol_definitions.rs`).  `host.rs` also
names the content statuses `CfuOfferResponseStatus` and the protocol error
`CfuResponseError`; per the `protocol_definitions.rs` in `src/` these are
`CfuUpdateContentResponseStatus` and `CfuContentUpdateResponseError`. -/

/-- `image.get_bytes_for_chunk(&mut chunk, address_offset)` for a full chunk:
52 image bytes starting at `address_offset`.  `image o` is the image byte at
absolute offset `o`. -/
def chunkData (image : Nat → Nat) (address_offset : Nat) : List Nat :=
  List.ofFn fun j : Fin DEFAULT_DATA_LENGTH => image (address_offset + j.val)

/-- `image.get_bytes_for_chunk(&mut chunk[..remainder], address_offset)`:
`remainder` image bytes into a zero-initialised 52-byte chunk. -/
def chunkDataLast (image : Nat → Nat) (address_offset remainder : Nat) : List Nat :=
  List.ofFn fun j : Fin DEFAULT_DATA_LENGTH =>
    if j.val < remainder then image (address_offset + j.val) else 0

/-- The command built by `CfuUpdater::process_first_data_block`:
`flags = FirstBlock (0x80)`, `data_length = 52`, `sequence_num = 0`,
`firmware_address = 0`. -/
def process_first_data_block_cmd (chunk : List Nat) : FwUpdateContentCommand :=
  { header := { sequence_num := 0, data_length := DEFAULT_DATA_LENGTH,
                flags := FW_UPDATE_FLAG_FIRST_BLOCK, firmware_address := 0 }
    data := chunk }

/-- The command built by `CfuUpdater::process_middle_data_block`:
`flags = None (0x00)`, `data_length = 52`, `sequence_num = seq_num as u16`. -/
def process_middle_data_block_cmd (chunk : List Nat) (seq_num : Nat) :
    FwUpdateContentCommand :=
  { header := { sequence_num := seq_num % 65536, data_length := DEFAULT_DATA_LENGTH,
                flags := 0x00, firmware_address := 0 }
    data := chunk }

/-- The command built by `CfuUpdater::process_last_data_block`:
`flags = LastBlock (0x40)`, `data_length = 52`, `sequence_num = seq_num as u16`. -/
def process_last_data_block_cmd (chunk : List Nat) (seq_num : Nat) :
    FwUpdateContentCommand :=
  { header := { sequence_num := seq_num % 65536, data_length := DEFAULT_DATA_LENGTH,
                flags := FW_UPDATE_FLAG_LAST_BLOCK, firmware_address := 0 }
    data := chunk }

/-- The content command `write_data_chunks` builds for loop index `i`
(the `match i` in the loop body):
`0` → first block; `num if num < num_chunks` → middle block; `_` → last block
(this arm reads only `remainder` bytes of the chunk). -/
def chunkCmd (image : Nat → Nat) (base_offset num_chunks remainder i : Nat) :
    FwUpdateContentCommand :=
  let address_offset := i * DEFAULT_DATA_LENGTH + base_offset
  if i = 0 then
    process_first_data_block_cmd (chunkData image address_offset)
  else if i < num_chunks then
    process_middle_data_block_cmd (chunkData image address_offset) i
  else
    process_last_data_block_cmd (chunkDataLast image address_offset remainder) i

/-- The `for i in 0..num_chunks` loop of `write_data_chunks` followed by the
final sequence check.  `remaining` counts the iterations left
(`remaining = num_chunks - i`); `resp` is the current value of the mutable
`resp` binding.  Each iteration sends the chunk-`i` command, receives
`peer i`, aborts with `UpdateError(cmpt_id)` unless the status is `Success`,
and otherwise stores the response in `resp`.  After the loop, the engine
fails with `InvalidBlockTransition` unless `resp.sequence == num_chunks as
u16`. -/
def writeChunksLoop (peer : Nat → FwUpdateContentResponse) (image : Nat → Nat)
    (cmpt_id base_offset num_chunks remainder : Nat) :
    Nat → Nat → FwUpdateContentResponse →
    List FwUpdateContentCommand × Except CfuProtocolError FwUpdateContentResponse
  | _i, 0, resp =>
    ([], if resp.sequence ≠ num_chunks % 65536 then .error .InvalidBlockTransition
         else .ok resp)
  | i, remaining + 1, _resp =>
    let cmd := chunkCmd image base_offset num_chunks remainder i
    let r := peer i
    -- if no errors in processing the data block, check the response
    if r.status ≠ .Success then
      ([cmd], .error (.UpdateError cmpt_id))
    else
      let rest := writeChunksLoop peer image cmpt_id base_offset num_chunks remainder
        (i + 1) remaining r
      (cmd :: rest.1, rest.2)

/-- `CfuUpdater::write_data_chunks(writer, image, cmpt_id, base_offset)`.

First round trip: send the zeroed 16-byte `updateoffercmd_bytes` and
deserialize the response (`peer0`); abort with
`CfuContentUpdateResponseError(status)` unless its status is `Success`.  Then
`num_chunks = total_bytes / 52`, `remainder = total_bytes % 52`, the mutable
`resp` starts as `FwUpdateContentResponse::new(0, ErrorInvalid)`, and the
loop runs for `i in 0..num_chunks`. -/
def write_data_chunks (peer0 : FwUpdateContentResponse)
    (peer : Nat → FwUpdateContentResponse) (total_bytes : Nat) (image : Nat → Nat)
    (cmpt_id base_offset : Nat) :
    List FwUpdateContentCommand × Except CfuProtocolError FwUpdateContentResponse :=
  if peer0.status ≠ .Success then
    ([], .error (.CfuContentUpdateResponseError peer0.status))
  else
    let num_chunks := total_bytes / DEFAULT_DATA_LENGTH
    let remainder := total_bytes % DEFAULT_DATA_LENGTH
    writeChunksLoop peer image cmpt_id base_offset num_chunks remainder 0 num_chunks
      (FwUpdateContentResponse.new 0 .ErrorInvalid)

/-! ### Client defaults (`client.rs`) -/

/-- A client component, as seen through the `CfuComponentTraits` capability
set (`components.rs`): identity plus the storage staging hooks.  Hook results
are modelled as values so that a theorem can state that the default client
implementations never consult them. -/
structure CfuComponentTraits where
  component_id : Nat
  storage_prepare : Except CfuWriterError Unit
  storage_write : Except CfuWriterError Unit
  storage_finalize : Except CfuWriterError Unit

/-- `default_process_command::<T, C, E>(args, _cmd)` (`client.rs`): the
`args.is_some()` branch only emits `trace!` logging (a no-op here); the
command is never inspected and the result is always `Ok(())`. -/
def default_process_command {T C E : Type} (_args : Option T) (_cmd : C) :
    Except E Unit :=
  .ok ()

/-- `default_prepare_components::<T, E>(args, _primary_component)`
(`client.rs`): the `args.is_some()` branch only emits `trace!` logging; the
component (and its storage hooks) is never touched and the result is always
`Ok(())`. -/
def default_prepare_components {T E : Type} (_args : Option T)
    (_primary_component : CfuComponentTraits) : Except E Unit :=
  .ok ()

/-! ## Theorems for the claims -/

/-- C10: the default implementations of `CfuReceiveContent::process_command`
and `CfuReceiveContent::prepare_components` return `Ok(())` for every input
command and every component; the command is not inspected, no component hook
is dispatched, no response frame is produced and the `Err` branch is never
taken.  (The result is the same for all commands and all components, and in
particular does not depend on the component's `storage_prepare` hook.) -/
theorem claim_C10 (T C E : Type) (args args' : Option T) (cmd : C)
    (primary primary' : CfuComponentTraits) :
    @default_process_command T C E args cmd = .ok () ∧
    @default_prepare_components T E args' primary = .ok () ∧
    @default_process_command T C E args cmd = @default_process_command T C E none cmd ∧
    @default_prepare_components T E args' primary = @default_prepare_components T E args' primary' :=
  ⟨rfl, rfl, rfl, rfl⟩

/-- C2 (code bug): evaluating `write_data_chunks` at the claim's own
single-chunk case.  For a 40-byte image (with an all-`Success`, echoing peer)
the engine sends NO content command at all — `num_chunks = 40 / 52 = 0`, so
the chunk loop never runs — and returns `Ok` with the untouched placeholder
response `FwUpdateContentResponse::new(0, ErrorInvalid)`; the claim requires
exactly one command with flags `0xC0`.  Moreover no command ever carries the
`LastBlock` bit: for a 208-byte image (4×52) the four commands sent carry
flags `[0x80, 0x00, 0x00, 0x00]` — the `process_last_data_block` match arm
is unreachable (`i < num_chunks` holds for every loop index). -/
theorem claim_C2_bug :
    ((write_data_chunks (FwUpdateContentResponse.new 0 .Success)
        (fun i => FwUpdateContentResponse.new i .Success) 40 (fun o => o % 256) 1 0).1 = []
      ∧ (write_data_chunks (FwUpdateContentResponse.new 0 .Success)
          (fun i => FwUpdateContentResponse.new i .Success) 40 (fun o => o % 256) 1 0).2 =
        .ok (FwUpdateContentResponse.new 0 .ErrorInvalid))
    ∧ (write_data_chunks (FwUpdateContentResponse.new 0 .Success)
        (fun i => FwUpdateContentResponse.new i .Success) 208 (fun o => o % 256) 1 0).1.map
          (fun c => c.header.flags) = [0x80, 0x00, 0x00, 0x00] :=
  ⟨⟨rfl, rfl⟩, rfl⟩

/-- C4 (code bug): the final sequence check compares against `num_chunks`,
not the last chunk's index `N = num_chunks - 1`.  For a 104-byte image
(2×52) with a well-behaved peer that answers `Success` echoing each chunk's
sequence number, the last response carries `sequence = 1 = N`, yet
`write_data_chunks` returns `Err(InvalidBlockTransition)` (it demands
`sequence == 2`); the claim requires that response to be returned
successfully.  Dually, a peer that (wrongly) reports `sequence = 2` — an
index that was never sent — is accepted. -/
theorem claim_C4_bug :
    (write_data_chunks (FwUpdateContentResponse.new 0 .Success)
        (fun i => FwUpdateContentResponse.new i .Success) 104 (fun o => o % 256) 1 0).2 =
      .error .InvalidBlockTransition
    ∧ (write_data_chunks (FwUpdateContentResponse.new 0 .Success)
        (fun _ => FwUpdateContentResponse.new 2 .Success) 104 (fun o => o % 256) 1 0).2 =
      .ok (FwUpdateContentResponse.new 2 .Success) :=
  ⟨rfl, rfl⟩

/-- C5 (code bug): a trailing partial chunk is never transmitted.  For a
92-byte image (`52 + 40`, remainder `r = 40`) with an echoing all-`Success`
peer, the engine sends exactly one content command — the full first block
(flags `0x80`, `data_length = 52`, bytes `0..52` of the image) — and the 40
remainder bytes are never sent in any command (the loop runs
`num_chunks = 1` time and the last-block arm that would read
`chunk[..remainder]` is unreachable); the claim requires a final command
with `data_length = 40` carrying the remainder bytes zero-padded.  (Even the
unreachable `process_last_data_block` would set `data_length = 52`, not
`r`.)  The run then ends in `Err(InvalidBlockTransition)`. -/
theorem claim_C5_bug :
    (write_data_chunks (FwUpdateContentResponse.new 0 .Success)
        (fun i => FwUpdateContentResponse.new i .Success) 92 (fun o => o % 256) 1 0).1 =
      [process_first_data_block_cmd (chunkData (fun o => o % 256) 0)]
    ∧ (process_first_data_block_cmd (chunkData (fun o => o % 256) 0)).header.data_length = 52
    ∧ (process_first_data_block_cmd (chunkData (fun o => o % 256) 0)).header.flags = 0x80
    ∧ (process_last_data_block_cmd (chunkDataLast (fun o => o % 256) 52 40) 1).header.data_length
        = 52
    ∧ (write_data_chunks (FwUpdateContentResponse.new 0 .Success)
        (fun i => FwUpdateContentResponse.new i .Success) 92 (fun o => o % 256) 1 0).2 =
      .error .InvalidBlockTransition :=
  ⟨rfl, rfl, rfl, rfl, rfl⟩

/-- Loop invariant for the chunk loop of `write_data_chunks`: at most
`remaining` commands are sent; the `j`-th command sent from loop index `i`
onwards is the chunk-`(i+j)` command; and a command is only ever followed by
another if the peer answered it with status `Success`. -/
theorem writeChunksLoop_spec (peer : Nat → FwUpdateContentResponse) (image : Nat → Nat)
    (cmpt_id base_offset num_chunks remainder : Nat) :
    ∀ remaining i resp,
      (writeChunksLoop peer image cmpt_id base_offset num_chunks remainder
          i remaining resp).1.length ≤ remaining
      ∧ (∀ j, j + 1 < (writeChunksLoop peer image cmpt_id base_offset num_chunks remainder
            i remaining resp).1.length → (peer (i + j)).status = .Success)
      ∧ (∀ j, j < (writeChunksLoop peer image cmpt_id base_offset num_chunks remainder
            i remaining resp).1.length →
          (writeChunksLoop peer image cmpt_id base_offset num_chunks remainder
            i remaining resp).1.get? j =
            some (chunkCmd image base_offset num_chunks remainder (i + j))) := by
  intro remaining
  induction remaining with
  | zero =>
    intro i resp
    have hz : writeChunksLoop peer image cmpt_id base_offset num_chunks remainder i 0 resp
        = ([], if resp.sequence ≠ num_chunks % 65536 then .error .InvalidBlockTransition
               else .ok resp) := rfl
    refine ⟨?_, ?_, ?_⟩
    · rw [hz]; simp
    · intro j hj
      rw [hz] at hj
      simp at hj
    · intro j hj
      rw [hz] at hj
      simp at hj
  | succ rem ih =>
    intro i resp
    by_cases h : (peer i).status = .Success
    · have hloop : writeChunksLoop peer image cmpt_id base_offset num_chunks remainder
          i (rem + 1) resp =
          (chunkCmd image base_offset num_chunks remainder i ::
            (writeChunksLoop peer image cmpt_id base_offset num_chunks remainder
              (i + 1) rem (peer i)).1,
           (writeChunksLoop peer image cmpt_id base_offset num_chunks remainder
              (i + 1) rem (peer i)).2) := by
        simp [writeChunksLoop, h]
      obtain ⟨ih1, ih2, ih3⟩ := ih (i + 1) (peer i)
      refine ⟨?_, ?_, ?_⟩
      · rw [hloop]
        simpa using ih1
      · intro j hj
        rw [hloop] at hj
        simp at hj
        match j with
        | 0 => simpa using h
        | j' + 1 =>
          have := ih2 j' (by omega)
          simpa [Nat.add_assoc, Nat.add_comm 1 j'] using this
      · intro j hj
        rw [hloop] at hj ⊢
        simp at hj
        match j with
        | 0 => simp
        | j' + 1 =>
          have := ih3 j' (by omega)
          simp only [List.get?_cons_succ]
          rw [this]
          congr 2
          omega
    · have hloop : writeChunksLoop peer image cmpt_id base_offset num_chunks remainder
          i (rem + 1) resp =
          ([chunkCmd image base_offset num_chunks remainder i],
           .error (.UpdateError cmpt_id)) := by
        simp [writeChunksLoop, h]
      refine ⟨?_, ?_, ?_⟩
      · rw [hloop]; simp
      · intro j hj
        rw [hloop] at hj
        simp at hj
      · intro j hj
        rw [hloop] at hj ⊢
        simp at hj
        have hj0 : j = 0 := by omega
        subst hj0
        simp

/-- C3: within a run of `CfuUpdater::write_data_chunks`, the engine is
strictly request/response serialized: the `j`-th content command it sends is
the chunk-`j` command, a command for chunk `j+1` is only ever sent after the
response to chunk `j` arrived with status `Success`, and after any
non-`Success` response no further chunk is sent (at most `i+1` commands are
sent when the response to chunk `i` is not `Success`). -/
theorem claim_C3 (peer0 : FwUpdateContentResponse) (peer : Nat → FwUpdateContentResponse)
    (total_bytes : Nat) (image : Nat → Nat) (cmpt_id base_offset : Nat) :
    (∀ j, j + 1 <
        (write_data_chunks peer0 peer total_bytes image cmpt_id base_offset).1.length →
      (peer j).status = .Success)
    ∧ (∀ i, (peer i).status ≠ .Success →
        (write_data_chunks peer0 peer total_bytes image cmpt_id base_offset).1.length ≤ i + 1)
    ∧ (∀ j, j <
          (write_data_chunks peer0 peer total_bytes image cmpt_id base_offset).1.length →
        (write_data_chunks peer0 peer total_bytes image cmpt_id base_offset).1.get? j =
          some (chunkCmd image base_offset (total_bytes / DEFAULT_DATA_LENGTH)
            (total_bytes % DEFAULT_DATA_LENGTH) j)) := by
  by_cases h0 : peer0.status = .Success
  · have hw : write_data_chunks peer0 peer total_bytes image cmpt_id base_offset =
        writeChunksLoop peer image cmpt_id base_offset (total_bytes / DEFAULT_DATA_LENGTH)
          (total_bytes % DEFAULT_DATA_LENGTH) 0 (total_bytes / DEFAULT_DATA_LENGTH)
          (FwUpdateContentResponse.new 0 .ErrorInvalid) := by
      simp [write_data_chunks, h0]
    obtain ⟨_, h2, h3⟩ := writeChunksLoop_spec peer image cmpt_id base_offset
      (total_bytes / DEFAULT_DATA_LENGTH) (total_bytes % DEFAULT_DATA_LENGTH)
      (total_bytes / DEFAULT_DATA_LENGTH) 0 (FwUpdateContentResponse.new 0 .ErrorInvalid)
    have key : ∀ j, j + 1 <
        (write_data_chunks peer0 peer total_bytes image cmpt_id base_offset).1.length →
        (peer j).status = .Success := by
      intro j hj
      rw [hw] at hj
      simpa using h2 j hj
    refine ⟨key, ?_, ?_⟩
    · intro i hi
      by_contra hlen
      exact hi (key i (by omega))
    · intro j hj
      rw [hw] at hj ⊢
      simpa using h3 j hj
  · have hw : write_data_chunks peer0 peer total_bytes image cmpt_id base_offset =
        ([], .error (.CfuContentUpdateResponseError peer0.status)) := by
      simp [write_data_chunks, h0]
    refine ⟨?_, ?_, ?_⟩
    · intro j hj
      rw [hw] at hj
      simp at hj
    · intro i _
      rw [hw]
      simp
    · intro j hj
      rw [hw] at hj
      simp at hj

/-- Witness for C3 at a concrete run: a 156-byte image (3×52) with an
echoing all-`Success` peer sends three commands, and the theorem yields that
the response to chunk 0 had status `Success`. -/
theorem claim_C3_witness :
    (write_data_chunks (FwUpdateContentResponse.new 0 .Success)
        (fun i => FwUpdateContentResponse.new i .Success) 156 (fun o => o % 256) 1 0).1.length
      = 3
    ∧ ((fun i => FwUpdateContentResponse.new i .Success) 0).status = .Success :=
  ⟨rfl, (claim_C3 (FwUpdateContentResponse.new 0 .Success)
      (fun i => FwUpdateContentResponse.new i .Success) 156 (fun o => o % 256) 1 0).1 0
    (by decide)⟩

/-! ### Codec lemma kit: enum byte/value round trips -/

instance {e a : Type} [DecidableEq e] [DecidableEq a] : DecidableEq (Except e a) := fun x y =>
  match x, y with
  | .ok x, .ok y =>
    if h : x = y then isTrue (by rw [h]) else isFalse (fun hh => h (Except.ok.inj hh))
  | .error x, .error y =>
    if h : x = y then isTrue (by rw [h]) else isFalse (fun hh => h (Except.error.inj hh))
  | .ok _, .error _ => isFalse (fun hh => Except.noConfusion hh)
  | .error _, .ok _ => isFalse (fun hh => Except.noConfusion hh)

/-- `HostToken::try_from` never fails. -/
theorem hostToken_tryFrom_isOk (v : Nat) : ∃ t, HostToken.tryFrom v = .ok t := by
  unfold HostToken.tryFrom
  split <;> exact ⟨_, rfl⟩

/-- A decoded `HostToken` re-encodes to the byte it was decoded from. -/
theorem hostToken_toByte_tryFrom {v : Nat} {t : HostToken}
    (h : HostToken.tryFrom v = .ok t) : t.toByte = v := by
  unfold HostToken.tryFrom at h
  split at h
  all_goals cases h
  all_goals rfl

/-- A decoded `SpecialComponentIds` re-encodes to the byte it was decoded
from. -/
theorem specialComponentIds_toByte_tryFrom {v : Nat} {c : SpecialComponentIds}
    (h : SpecialComponentIds.tryFrom v = .ok c) : c.toByte = v := by
  unfold SpecialComponentIds.tryFrom at h
  split at h
  all_goals cases h
  all_goals rfl

/-- A decoded `OfferRejectReason` re-encodes to the byte it was decoded
from. -/
theorem offerRejectReason_toByte_tryFrom {v : Nat} {r : OfferRejectReason}
    (h : OfferRejectReason.tryFrom v = .ok r) : r.toByte = v := by
  unfold OfferRejectReason.tryFrom at h
  split at h
  all_goals try split at h
  all_goals cases h
  all_goals rfl

/-- A decoded `OfferStatus` re-encodes to the byte it was decoded from. -/
theorem offerStatus_toByte_tryFrom {v : Nat} {s : OfferStatus}
    (h : OfferStatus.tryFrom v = .ok s) : s.toByte = v := by
  unfold OfferStatus.tryFrom at h
  split at h
  all_goals cases h
  all_goals rfl

/-- A decoded `CfuUpdateContentResponseStatus` re-encodes to the byte it was
decoded from. -/
theorem contentStatus_toByte_tryFrom {v : Nat}
    {s : CfuUpdateContentResponseStatus}
    (h : CfuUpdateContentResponseStatus.tryFrom v = .ok s) : s.toByte = v := by
  unfold CfuUpdateContentResponseStatus.tryFrom at h
  split at h
  all_goals cases h
  all_goals rfl

/-- A decoded `OfferCommandExtendedCodeValues` re-encodes to the byte it was
decoded from. -/
theorem extendedCode_toByte_ofByte (v : Nat) :
    (OfferCommandExtendedCodeValues.ofByte v).toByte = v := by
  unfold OfferCommandExtendedCodeValues.ofByte
  split <;> simp_all [OfferCommandExtendedCodeValues.toByte]

/-! ### Canonicity predicates

A value of an enum with a vendor-specific catch-all is *canonical* when its
encoded byte decodes back to the very same value (this rules out, e.g.,
`HostToken::VendorSpecific(0xA0)`, whose byte `0xA0` decodes to `Driver`). -/

/-- `t` is canonical: decoding `t`'s byte yields `t` again. -/
def HostToken.Canonical (t : HostToken) : Prop :=
  HostToken.tryFrom t.toByte = .ok t

instance (t : HostToken) : Decidable t.Canonical := by
  unfold HostToken.Canonical
  infer_instance

/-- `r` is canonical: decoding `r`'s byte yields `r` again. -/
def OfferRejectReason.Canonical (r : OfferRejectReason) : Prop :=
  OfferRejectReason.tryFrom r.toByte = .ok r

instance (r : OfferRejectReason) : Decidable r.Canonical := by
  unfold OfferRejectReason.Canonical
  infer_instance

/-- `c` is canonical: decoding `c`'s byte yields `c` again. -/
def OfferCommandExtendedCodeValues.Canonical (c : OfferCommandExtendedCodeValues) : Prop :=
  OfferCommandExtendedCodeValues.ofByte c.toByte = c

instance (c : OfferCommandExtendedCodeValues) : Decidable c.Canonical := by
  unfold OfferCommandExtendedCodeValues.Canonical
  infer_instance

/-- C9 counterexample: the claim says every byte-0 value outside
`{0x00, 0x01, 0x02}` decodes successfully as a vendor-specific code, but
decoding the 16-byte buffer `[0x05, 0, 0xFF, 0xA0, 0, …, 0]` (code byte
`0x05`, a well-formed `Info` frame otherwise) fails with `ValueOutOfRange`. -/
theorem claim_C9_counterexample :
    FwUpdateOfferInformation.fromBytes
        [0x05, 0, 0xFF, 0xA0, 0, 0, 0, 0, 0, 0, 0, 0, 0, 0, 0, 0] =
      .error .ValueOutOfRange :=
  rfl

/-- C9 (amended): when decoding a 16-byte `FwUpdateOfferInformation` frame
(here with the mandatory `Info` id `0xFF` in byte 2), byte-0 values `0x00`,
`0x01`, `0x02` decode to `StartEntireTransaction`, `StartOfferList`,
`EndOfferList` respectively, and EVERY other byte-0 value fails to decode
with `ValueOutOfRange` (vendor-specific codes are encodable but not
decodable), whatever the rest of the buffer is. -/
theorem claim_C9 (b0 b1 b3 : Nat) (rest : List Nat) (hrest : rest.length = 12) :
    (b0 = 0x00 → ∃ r, FwUpdateOfferInformation.fromBytes (b0 :: b1 :: 0xFF :: b3 :: rest) =
      .ok r ∧ r.component_info.code = .StartEntireTransaction)
    ∧ (b0 = 0x01 → ∃ r, FwUpdateOfferInformation.fromBytes (b0 :: b1 :: 0xFF :: b3 :: rest) =
      .ok r ∧ r.component_info.code = .StartOfferList)
    ∧ (b0 = 0x02 → ∃ r, FwUpdateOfferInformation.fromBytes (b0 :: b1 :: 0xFF :: b3 :: rest) =
      .ok r ∧ r.component_info.code = .EndOfferList)
    ∧ (b0 ≠ 0x00 → b0 ≠ 0x01 → b0 ≠ 0x02 → ∀ tail : List Nat,
        FwUpdateOfferInformation.fromBytes (b0 :: tail) = .error .ValueOutOfRange) := by
  have hok : ∀ code, ∃ r,
      FwUpdateOfferInformation.fromBytesRest (b0 :: b1 :: 0xFF :: b3 :: rest) code = .ok r
        ∧ r.component_info.code = code := by
    intro code
    obtain ⟨t, ht⟩ := hostToken_tryFrom_isOk b3
    unfold FwUpdateOfferInformation.fromBytesRest
    have h2 : byteAt (b0 :: b1 :: 0xFF :: b3 :: rest) 2 = 0xFF := rfl
    have h3 : byteAt (b0 :: b1 :: 0xFF :: b3 :: rest) 3 = b3 := rfl
    rw [h2, h3]
    have hid : SpecialComponentIds.tryFrom 0xFF = .ok .Info := rfl
    rw [hid, ht]
    exact ⟨_, rfl, rfl⟩
  refine ⟨?_, ?_, ?_, ?_⟩
  · intro h0
    subst h0
    exact hok .StartEntireTransaction
  · intro h0
    subst h0
    exact hok .StartOfferList
  · intro h0
    subst h0
    exact hok .EndOfferList
  · intro h0 h1 h2 tail
    unfold FwUpdateOfferInformation.fromBytes
    have hb : byteAt (b0 :: tail) 0 = b0 := rfl
    rw [hb]
    split
    · omega
    · omega
    · omega
    · rfl

/-- Witness for C9 at a concrete buffer: code byte `0x01` with `Info` id and
`Driver` token decodes to `StartOfferList`. -/
theorem claim_C9_witness :
    ∃ r, FwUpdateOfferInformation.fromBytes
        ((0x01 : Nat) :: 0x00 :: 0xFF :: 0xA0 :: List.replicate 12 0) =
      .ok r ∧ r.component_info.code = .StartOfferList :=
  (claim_C9 0x01 0x00 0xA0 (List.replicate 12 0) (by decide)).2.1 rfl

/-- C8: decoding a 60-byte `GetFwVersionResponse` buffer fails with
`ValueOutOfRange` whenever byte 0 (`component_count`) exceeds 7, and
succeeds for every `component_count ≤ 7` when byte 3 is a valid protocol
byte (`0x20` or `0x21`), with every `component_info` entry at index `≥
component_count` left at its zero/default value. -/
theorem claim_C8 (b : List Nat) (hlen : b.length = 60) :
    (byteAt b 0 > 7 → GetFwVersionResponse.fromBytes b = .error .ValueOutOfRange)
    ∧ (byteAt b 0 ≤ 7 → byteAt b 3 = 0x20 ∨ byteAt b 3 = 0x21 →
        ∃ r, GetFwVersionResponse.fromBytes b = .ok r
          ∧ r.header.component_count = byteAt b 0
          ∧ ∀ i : Fin MAX_CMPT_COUNT, byteAt b 0 ≤ i.val →
              r.component_info i = FwVerComponentInfo.default) := by
  constructor
  · intro hgt
    unfold GetFwVersionResponse.fromBytes
    have : byteAt b 0 > MAX_CMPT_COUNT := hgt
    simp [this]
  · intro hle h3
    have hnot : ¬ byteAt b 0 > MAX_CMPT_COUNT := by
      unfold MAX_CMPT_COUNT
      omega
    unfold GetFwVersionResponse.fromBytes
    simp only [hnot, if_false]
    rcases h3 with h3 | h3 <;> rw [h3]
    · refine ⟨_, rfl, rfl, ?_⟩
      intro i hi
      exact if_neg (by omega)
    · refine ⟨_, rfl, rfl, ?_⟩
      intro i hi
      exact if_neg (by omega)

/-- Witness for C8 at a concrete buffer: `component_count = 2`, protocol
byte `0x20`, junk bytes `7` elsewhere — decoding succeeds and entries 2..6
are default. -/
theorem claim_C8_witness :
    ∃ r, GetFwVersionResponse.fromBytes
        ([2, 0, 0, 0x20] ++ List.replicate 56 7) = .ok r
      ∧ r.header.component_count = byteAt ([2, 0, 0, 0x20] ++ List.replicate 56 7) 0
      ∧ ∀ i : Fin MAX_CMPT_COUNT, byteAt ([2, 0, 0, 0x20] ++ List.replicate 56 7) 0 ≤ i.val →
          r.component_info i = FwVerComponentInfo.default :=
  (claim_C8 ([2, 0, 0, 0x20] ++ List.replicate 56 7) (by decide)).2 (by decide)
    (Or.inl (by decide))

/-! ### Validity of in-memory frame values

`Valid` captures the claim's notion of a valid in-memory frame value — the
implicit `u8`/`u16`/`u32` typing of the Rust fields, reserved fields at
zero, canonical enum values — tightened, where claim C1 fails as stated, to
what the decoder actually accepts (the three defined offer-information
codes, the special component id the frame position demands, and
reject-reason bytes the decoder admits). -/

/-- `s.toByte` always decodes back to `s` (closed enum). -/
theorem offerStatus_tryFrom_toByte (s : OfferStatus) :
    OfferStatus.tryFrom s.toByte = .ok s := by
  cases s <;> rfl

/-- `s.toByte` always decodes back to `s` (closed enum). -/
theorem contentStatus_tryFrom_toByte (s : CfuUpdateContentResponseStatus) :
    CfuUpdateContentResponseStatus.tryFrom s.toByte = .ok s := by
  cases s <;> rfl

/-- The `u8`/`u16`/`u8` typing of `FwVersion`. -/
def FwVersion.Valid (v : FwVersion) : Prop :=
  v.variant < 256 ∧ v.minor < 65536 ∧ v.major < 256

instance (v : FwVersion) : Decidable v.Valid := by
  unfold FwVersion.Valid
  infer_instance

/-- Valid in-memory `FwUpdateOffer`: field typing plus a canonical token. -/
def FwUpdateOffer.Valid (c : FwUpdateOffer) : Prop :=
  c.component_info.segment_number < 256
  ∧ c.component_info.byte1.packed_byte < 256
  ∧ c.component_info.component_id < 256
  ∧ c.component_info.token.Canonical
  ∧ c.firmware_version.Valid
  ∧ c.vendor_specific < 4294967296
  ∧ c.misc_and_protocol_version < 4294967296

instance (c : FwUpdateOffer) : Decidable c.Valid := by
  unfold FwUpdateOffer.Valid
  infer_instance

/-- Valid in-memory `FwUpdateOfferInformation`: one of the three defined
codes, the mandatory `Info` id, zero reserved fields, canonical token. -/
def FwUpdateOfferInformation.Valid (i : FwUpdateOfferInformation) : Prop :=
  (i.component_info.code = .StartEntireTransaction
    ∨ i.component_info.code = .StartOfferList
    ∨ i.component_info.code = .EndOfferList)
  ∧ i.component_info.component_id = .Info
  ∧ i.component_info._reserved = 0
  ∧ i.component_info.token.Canonical
  ∧ i._reserved0 = 0 ∧ i._reserved1 = 0 ∧ i._reserved2 = 0

instance (i : FwUpdateOfferInformation) : Decidable i.Valid := by
  unfold FwUpdateOfferInformation.Valid
  infer_instance

/-- Valid in-memory `FwUpdateOfferExtended`: a canonical code, the mandatory
`Command` id, zero reserved fields, canonical token. -/
def FwUpdateOfferExtended.Valid (c : FwUpdateOfferExtended) : Prop :=
  c.component_info.code.Canonical
  ∧ c.component_info.component_id = .Command
  ∧ c.component_info._reserved = 0
  ∧ c.component_info.token.Canonical
  ∧ c._reserved0 = 0 ∧ c._reserved1 = 0 ∧ c._reserved2 = 0

instance (c : FwUpdateOfferExtended) : Decidable c.Valid := by
  unfold FwUpdateOfferExtended.Valid
  infer_instance

/-- Valid in-memory `FwUpdateOfferResponse`: canonical token and a
reject-reason the decoder admits (named values or `0xE0..`), zero reserved
fields. -/
def FwUpdateOfferResponse.Valid (r : FwUpdateOfferResponse) : Prop :=
  r.token.Canonical
  ∧ r.reject_reason.Canonical
  ∧ r._reserved0 = List.replicate 3 0
  ∧ r._reserved1 = List.replicate 4 0
  ∧ r._reserved2 = List.replicate 3 0
  ∧ r._reserved3 = List.replicate 3 0

instance (r : FwUpdateOfferResponse) : Decidable r.Valid := by
  unfold FwUpdateOfferResponse.Valid
  infer_instance

/-- Valid in-memory `FwUpdateContentCommand`: field typing and a full
52-byte payload. -/
def FwUpdateContentCommand.Valid (c : FwUpdateContentCommand) : Prop :=
  c.header.flags < 256
  ∧ c.header.data_length < 256
  ∧ c.header.sequence_num < 65536
  ∧ c.header.firmware_address < 4294967296
  ∧ c.data.length = DEFAULT_DATA_LENGTH
  ∧ ∀ b ∈ c.data, b < 256

instance (c : FwUpdateContentCommand) : Decidable c.Valid := by
  unfold FwUpdateContentCommand.Valid
  infer_instance

/-- Valid in-memory `FwUpdateContentResponse`: field typing and zero
reserved fields. -/
def FwUpdateContentResponse.Valid (r : FwUpdateContentResponse) : Prop :=
  r.sequence < 65536
  ∧ r._reserved0 = 0
  ∧ r._reserved1 = List.replicate 11 0

instance (r : FwUpdateContentResponse) : Decidable r.Valid := by
  unfold FwUpdateContentResponse.Valid
  infer_instance

/-- `u8`/`u8`/`u16` typing of one `FwVerComponentInfo` entry. -/
def FwVerComponentInfo.Valid (c : FwVerComponentInfo) : Prop :=
  c.fw_version.Valid ∧ c.packed_byte < 256 ∧ c.component_id < 256
    ∧ c.vendor_specific1 < 65536

instance (c : FwVerComponentInfo) : Decidable c.Valid := by
  unfold FwVerComponentInfo.Valid
  infer_instance

/-- Valid in-memory `GetFwVersionResponse`: at most 7 components, typed
fields, and entries beyond `component_count` at their default. -/
def GetFwVersionResponse.Valid (r : GetFwVersionResponse) : Prop :=
  r.header.component_count ≤ MAX_CMPT_COUNT
  ∧ r.header._reserved < 65536
  ∧ (∀ i : Fin MAX_CMPT_COUNT, (r.component_info i).Valid)
  ∧ (∀ i : Fin MAX_CMPT_COUNT, r.header.component_count ≤ i.val →
      r.component_info i = FwVerComponentInfo.default)

instance (r : GetFwVersionResponse) : Decidable r.Valid := by
  unfold GetFwVersionResponse.Valid
  infer_instance

/-! ### Round trips: `decode (encode v) = v` for valid `v` -/

/-- `FwUpdateOffer`: decode ∘ encode = id on valid values. -/
theorem offer_fromBytes_toBytes (v : FwUpdateOffer) (h : v.Valid) :
    FwUpdateOffer.fromBytes v.toBytes = .ok v := by
  obtain ⟨⟨seg, ⟨pb⟩, cid, tok⟩, ⟨var, minor, major⟩, vs, misc⟩ := v
  obtain ⟨h1, h2, h3, htok, ⟨hv1, hv2, hv3⟩, h5, h6⟩ := h
  have htok : HostToken.tryFrom tok.toByte = .ok tok := htok
  have h1 : seg < 256 := h1
  have h2 : pb < 256 := h2
  have h3 : cid < 256 := h3
  have hv1 : var < 256 := hv1
  have hv2 : minor < 65536 := hv2
  have hv3 : major < 256 := hv3
  have h5 : vs < 4294967296 := h5
  have h6 : misc < 4294967296 := h6
  unfold FwUpdateOffer.toBytes FwUpdateOffer.fromBytes
  dsimp only
  simp only [le16, le32, byteAt, List.cons_append, List.nil_append,
    List.getD_cons_zero, List.getD_cons_succ]
  rw [show HostToken.tryFrom (HostToken.toByte tok) = .ok tok from htok]
  simp only [FwUpdateOffer.mk.injEq, UpdateOfferComponentInfo.mk.injEq,
    UpdateOfferComponentInfoByte1.mk.injEq, FwVersion.mk.injEq, fromLe16, fromLe32,
    Except.ok.injEq, and_true, true_and]
  omega

/-- `FwUpdateOfferInformation`: decode ∘ encode = id on valid values. -/
theorem offerInformation_fromBytes_toBytes (v : FwUpdateOfferInformation)
    (h : v.Valid) : FwUpdateOfferInformation.fromBytes v.toBytes = .ok v := by
  obtain ⟨⟨code, res, cmpid, tok⟩, r0, r1, r2⟩ := v
  obtain ⟨hcode, hid, hres, htok, h0, h1, h2⟩ := h
  have htok' : HostToken.tryFrom tok.toByte = .ok tok := htok
  have hcode' : code = .StartEntireTransaction ∨ code = .StartOfferList
      ∨ code = .EndOfferList := hcode
  have hid' : cmpid = .Info := hid
  have hres' : res = 0 := hres
  have h0' : r0 = 0 := h0
  have h1' : r1 = 0 := h1
  have h2' : r2 = 0 := h2
  subst hid' hres' h0' h1' h2'
  have hrest : ∀ c, FwUpdateOfferInformation.fromBytesRest
      (FwUpdateOfferInformation.toBytes ⟨⟨c, 0, .Info, tok⟩, 0, 0, 0⟩) c =
      .ok ⟨⟨c, 0, .Info, tok⟩, 0, 0, 0⟩ := by
    intro c
    have hstep : FwUpdateOfferInformation.fromBytesRest
        (FwUpdateOfferInformation.toBytes ⟨⟨c, 0, .Info, tok⟩, 0, 0, 0⟩) c =
        match HostToken.tryFrom tok.toByte with
        | .error e => .error e
        | .ok token => .ok ⟨⟨c, 0, .Info, token⟩, 0, 0, 0⟩ := rfl
    rw [hstep, htok']
  rcases hcode' with hc | hc | hc <;> subst hc
  · exact hrest .StartEntireTransaction
  · exact hrest .StartOfferList
  · exact hrest .EndOfferList

/-- `FwUpdateOfferExtended`: decode ∘ encode = id on valid values. -/
theorem offerExtended_fromBytes_toBytes (v : FwUpdateOfferExtended)
    (h : v.Valid) : FwUpdateOfferExtended.fromBytes v.toBytes = .ok v := by
  obtain ⟨⟨code, res, cmpid, tok⟩, r0, r1, r2⟩ := v
  obtain ⟨hcode, hid, hres, htok, h0, h1, h2⟩ := h
  have htok' : HostToken.tryFrom tok.toByte = .ok tok := htok
  have hcode' : OfferCommandExtendedCodeValues.ofByte code.toByte = code := hcode
  have hid' : cmpid = .Command := hid
  have hres' : res = 0 := hres
  have h0' : r0 = 0 := h0
  have h1' : r1 = 0 := h1
  have h2' : r2 = 0 := h2
  subst hid' hres' h0' h1' h2'
  have hstep : FwUpdateOfferExtended.fromBytes
      (FwUpdateOfferExtended.toBytes ⟨⟨code, 0, .Command, tok⟩, 0, 0, 0⟩) =
      match HostToken.tryFrom tok.toByte with
      | .error e => .error e
      | .ok token =>
        .ok ⟨⟨OfferCommandExtendedCodeValues.ofByte code.toByte, 0, .Command, token⟩,
          0, 0, 0⟩ := rfl
  rw [hstep, htok', hcode']

/-- `FwUpdateOfferResponse`: decode ∘ encode = id on valid values. -/
theorem offerResponse_fromBytes_toBytes (v : FwUpdateOfferResponse)
    (h : v.Valid) : FwUpdateOfferResponse.fromBytes v.toBytes = .ok v := by
  obtain ⟨r0, tok, r1, rej, r2, st, r3⟩ := v
  obtain ⟨htok, hrej, h0, h1, h2, h3⟩ := h
  have htok' : HostToken.tryFrom tok.toByte = .ok tok := htok
  have hrej' : OfferRejectReason.tryFrom rej.toByte = .ok rej := hrej
  have h0' : r0 = List.replicate 3 0 := h0
  have h1' : r1 = List.replicate 4 0 := h1
  have h2' : r2 = List.replicate 3 0 := h2
  have h3' : r3 = List.replicate 3 0 := h3
  subst h0' h1' h2' h3'
  have hstep : FwUpdateOfferResponse.fromBytes
      (FwUpdateOfferResponse.toBytes ⟨List.replicate 3 0, tok, List.replicate 4 0, rej,
        List.replicate 3 0, st, List.replicate 3 0⟩) =
      match HostToken.tryFrom tok.toByte with
      | .error _ => .error .ByteConversionError
      | .ok token =>
        match OfferRejectReason.tryFrom rej.toByte with
        | .error _ => .error .ByteConversionError
        | .ok reject_reason =>
          match OfferStatus.tryFrom st.toByte with
          | .error _ => .error .ByteConversionError
          | .ok status =>
            .ok ⟨List.replicate 3 0, token, List.replicate 4 0, reject_reason,
              List.replicate 3 0, status, List.replicate 3 0⟩ := rfl
  rw [hstep, htok', hrej', offerStatus_tryFrom_toByte]

/-- `FwUpdateContentCommand`: decode ∘ encode = id on valid values. -/
theorem contentCommand_fromBytes_toBytes (v : FwUpdateContentCommand)
    (h : v.Valid) : FwUpdateContentCommand.fromBytes v.toBytes = .ok v := by
  obtain ⟨⟨flags, dl, seq, addr⟩, data⟩ := v
  obtain ⟨h1, h2, h3, h4, h5, h6⟩ := h
  have h1 : flags < 256 := h1
  have h2 : dl < 256 := h2
  have h3 : seq < 65536 := h3
  have h4 : addr < 4294967296 := h4
  unfold FwUpdateContentCommand.fromBytes FwUpdateContentCommand.toBytes
  simp only [le16, le32, byteAt, List.cons_append, List.nil_append,
    List.getD_cons_zero, List.getD_cons_succ, List.drop_succ_cons, List.drop_zero]
  simp only [FwUpdateContentCommand.mk.injEq, FwUpdateContentHeader.mk.injEq,
    fromLe16, fromLe32, Except.ok.injEq, and_true, true_and]
  omega

/-- `FwUpdateContentResponse`: decode ∘ encode = id on valid values. -/
theorem contentResponse_fromBytes_toBytes (v : FwUpdateContentResponse)
    (h : v.Valid) : FwUpdateContentResponse.fromBytes v.toBytes = .ok v := by
  obtain ⟨seq, res0, st, res1⟩ := v
  obtain ⟨h1', h2, h3⟩ := h
  have h1 : seq < 65536 := h1'
  have h2' : res0 = 0 := h2
  have h3' : res1 = List.replicate 11 0 := h3
  subst h2' h3'
  unfold FwUpdateContentResponse.fromBytes FwUpdateContentResponse.toBytes
  simp only [le16, byteAt, List.cons_append, List.nil_append, List.getD_cons_zero,
    List.getD_cons_succ]
  rw [contentStatus_tryFrom_toByte]
  simp only [FwUpdateContentResponse.mk.injEq, fromLe16, Except.ok.injEq, and_true,
    true_and]
  omega

/-- Parsing back the 8 serialized bytes of a component entry recovers the
entry. -/
theorem FwVerComponentInfo.parse_toBytes_eq (c : FwVerComponentInfo) (hc : c.Valid)
    (bytes : List Nat) (offset : Nat)
    (h0 : byteAt bytes offset = c.packed_byte % 256)
    (h1 : byteAt bytes (offset + 1) = c.component_id % 256)
    (h2 : byteAt bytes (offset + 2) = c.vendor_specific1 % 256)
    (h3 : byteAt bytes (offset + 3) = c.vendor_specific1 / 256 % 256)
    (h4 : byteAt bytes (offset + 4) = c.fw_version.major % 256)
    (h5 : byteAt bytes (offset + 5) = c.fw_version.minor % 256)
    (h6 : byteAt bytes (offset + 6) = c.fw_version.minor / 256 % 256)
    (h7 : byteAt bytes (offset + 7) = c.fw_version.variant % 256) :
    FwVerComponentInfo.parseAt bytes offset = c := by
  obtain ⟨⟨var, minor, major⟩, pb, cid, vs⟩ := c
  obtain ⟨⟨b1, b2, b3⟩, b4, b5, b6⟩ := hc
  have b1 : var < 256 := b1
  have b2 : minor < 65536 := b2
  have b3 : major < 256 := b3
  have b4 : pb < 256 := b4
  have b5 : cid < 256 := b5
  have b6 : vs < 65536 := b6
  unfold FwVerComponentInfo.parseAt
  rw [h0, h1, h2, h3, h4, h5, h6, h7]
  simp only [FwVerComponentInfo.mk.injEq, FwVersion.mk.injEq, fromLe16, and_true, true_and]
  omega

/-- `GetFwVersionResponse`: encode succeeds on valid values and decode
recovers the value. -/
theorem getFwVersionResponse_fromBytes_toBytes (r : GetFwVersionResponse) (h : r.Valid) :
    ∃ bs, GetFwVersionResponse.toBytes r = .ok bs
      ∧ GetFwVersionResponse.fromBytes bs = .ok r := by
  obtain ⟨⟨count, res, byte3⟩, info⟩ := r
  obtain ⟨hcount, hres, hvalid, hdef⟩ := h
  have hcount' : count ≤ 7 := hcount
  have hres' : res < 65536 := hres
  have hvalid' : ∀ i : Fin 7, (info i).Valid := hvalid
  have hdef' : ∀ i : Fin 7, count ≤ i.val → info i = FwVerComponentInfo.default := hdef
  clear hcount hres hvalid hdef
  refine ⟨[count % 256] ++ le16 res ++ [byte3.toByte]
      ++ ((List.ofFn fun i : Fin MAX_CMPT_COUNT => (info i).toBytes).take count).flatten
      ++ List.replicate (56 - 8 * count) 0, ?_, ?_⟩
  · unfold GetFwVersionResponse.toBytes
    rw [if_pos (show count ≤ MAX_CMPT_COUNT from hcount')]
  · cases byte3 <;> interval_cases count <;> (
      simp only [GetFwVersionResponse.fromBytes, GetFwVersionResponse.fromBytesRest,
        GetFwVerRespHeaderByte3.toByte, List.ofFn_succ, List.ofFn_zero, List.take,
        List.flatten_cons, List.flatten_nil, FwVerComponentInfo.toBytes, le16,
        byteAt, List.cons_append, List.nil_append, List.getD_cons_zero,
        List.getD_cons_succ, MAX_CMPT_COUNT]
      rw [if_neg (by norm_num)]
      simp only [Except.ok.injEq, GetFwVersionResponse.mk.injEq,
        GetFwVersionResponseHeader.mk.injEq, fromLe16]
      refine ⟨⟨trivial, by omega, trivial⟩, ?_⟩
      funext i
      fin_cases i <;>
        first
          | (rw [if_neg (by decide)]
             exact (hdef' _ (by decide)).symm)
          | (rw [if_pos (by decide)]
             exact FwVerComponentInfo.parse_toBytes_eq _ (hvalid' _) _ _
               rfl rfl rfl rfl rfl rfl rfl rfl))


/-- `OfferRejectReason::try_from` succeeds exactly on named values and
`0xE0..`. -/
theorem offerRejectReason_tryFrom_isOk (v : Nat)
    (h : v = 0x00 ∨ v = 0x01 ∨ v = 0x02 ∨ 0xE0 ≤ v) :
    ∃ r, OfferRejectReason.tryFrom v = .ok r := by
  rcases h with h | h | h | h
  · subst h
    exact ⟨_, rfl⟩
  · subst h
    exact ⟨_, rfl⟩
  · subst h
    exact ⟨_, rfl⟩
  · unfold OfferRejectReason.tryFrom
    split
    · exfalso
      omega
    · exfalso
      omega
    · exfalso
      omega
    · rw [if_pos h]
      exact ⟨_, rfl⟩

/-- `OfferStatus::try_from` succeeds on the six defined status bytes. -/
theorem offerStatus_tryFrom_isOk (v : Nat)
    (h : v = 0x00 ∨ v = 0x01 ∨ v = 0x02 ∨ v = 0x03 ∨ v = 0x04 ∨ v = 0xFF) :
    ∃ s, OfferStatus.tryFrom v = .ok s := by
  rcases h with h | h | h | h | h | h <;> subst h <;> exact ⟨_, rfl⟩

/-- `CfuUpdateContentResponseStatus::try_from` succeeds on bytes `0..0x0B`. -/
theorem contentStatus_tryFrom_isOk (v : Nat) (h : v ≤ 0x0B) :
    ∃ s, CfuUpdateContentResponseStatus.tryFrom v = .ok s := by
  interval_cases v <;> exact ⟨_, rfl⟩

/-- C1 counterexample: the claim quantifies over every valid in-memory frame
value (reserved fields zero, enum fields at their canonical byte values),
but the vendor-specific offer-information code `VendorSpecific(0x05)` —
reserved fields all zero via the constructors, canonical byte `0x05` —
encodes to a 16-byte frame whose decoding FAILS with `ValueOutOfRange`
instead of returning the value. -/
theorem claim_C1_counterexample :
    FwUpdateOfferInformation.fromBytes
        (FwUpdateOfferInformation.new
          (OfferInformationComponentInfo.new .Driver .Info
            (.VendorSpecific 0x05))).toBytes =
      .error .ValueOutOfRange :=
  rfl

/-- C1 (amended): `decode (encode v) = v` holds for all seven frame types on
valid values, where validity is the claim's (field typing, reserved fields
zero, canonical enums) tightened by what the decoders accept: for
`FwUpdateOfferInformation` the code must be one of the three defined codes
(vendor-specific codes do not decode) and the component id must be `Info`;
for `FwUpdateOfferExtended` the component id must be `Command`; for
`FwUpdateOfferResponse` the reject reason must be one the decoder admits
(named values or vendor-specific `0xE0..0xFF`). -/
theorem claim_C1 :
    (∀ v : FwUpdateOffer, v.Valid → FwUpdateOffer.fromBytes v.toBytes = .ok v)
    ∧ (∀ v : FwUpdateOfferInformation, v.Valid →
        FwUpdateOfferInformation.fromBytes v.toBytes = .ok v)
    ∧ (∀ v : FwUpdateOfferExtended, v.Valid →
        FwUpdateOfferExtended.fromBytes v.toBytes = .ok v)
    ∧ (∀ v : FwUpdateOfferResponse, v.Valid →
        FwUpdateOfferResponse.fromBytes v.toBytes = .ok v)
    ∧ (∀ v : FwUpdateContentCommand, v.Valid →
        FwUpdateContentCommand.fromBytes v.toBytes = .ok v)
    ∧ (∀ v : FwUpdateContentResponse, v.Valid →
        FwUpdateContentResponse.fromBytes v.toBytes = .ok v)
    ∧ (∀ v : GetFwVersionResponse, v.Valid →
        ∃ bs, GetFwVersionResponse.toBytes v = .ok bs
          ∧ GetFwVersionResponse.fromBytes bs = .ok v) :=
  ⟨offer_fromBytes_toBytes, offerInformation_fromBytes_toBytes,
   offerExtended_fromBytes_toBytes, offerResponse_fromBytes_toBytes,
   contentCommand_fromBytes_toBytes, contentResponse_fromBytes_toBytes,
   getFwVersionResponse_fromBytes_toBytes⟩

/-- Witness for C1 at concrete valid frames: an offer (vendor token `0x42`,
version 1.2.3) and a content response (sequence `0x1234`, `Success`) both
survive the decode∘encode round trip. -/
theorem claim_C1_witness :
    FwUpdateOffer.fromBytes
        (FwUpdateOffer.mk ⟨1, ⟨0x80⟩, 2, .VendorSpecific 0x42⟩ ⟨3, 2, 1⟩ 5
          0x87654321).toBytes =
      .ok (FwUpdateOffer.mk ⟨1, ⟨0x80⟩, 2, .VendorSpecific 0x42⟩ ⟨3, 2, 1⟩ 5 0x87654321)
    ∧ FwUpdateContentResponse.fromBytes
        (FwUpdateContentResponse.new 0x1234 .Success).toBytes =
      .ok (FwUpdateContentResponse.new 0x1234 .Success) :=
  ⟨claim_C1.1 _ (by decide), claim_C1.2.2.2.2.2.1 _ (by decide)⟩

/-- C7 counterexample: serializing a `GetFwVersionResponse` whose
`header.component_count` is 8 (constructible via
`GetFwVersionResponseHeader::new(8, NoSpecialFlags)`) does NOT produce a
60-byte array: the serializer's component loop fails with
`ByteConversionError` when it asks for the eighth entry of the 7-element
`component_info` array. -/
theorem claim_C7_counterexample :
    GetFwVersionResponse.toBytes
        { header := GetFwVersionResponseHeader.new 8 .NoSpecialFlags
          component_info := fun _ => FwVerComponentInfo.default } =
      .error .ByteConversionError :=
  rfl

/-- C7 (amended): serialization is infallible for every frame type except
`GetFwVersionResponse` — the six `From` conversions are total and always
produce their full fixed-size array (16, 32 or 60 bytes) — while
`GetFwVersionResponse` serialization (a `TryFrom`) produces a 60-byte array
whenever `header.component_count ≤ 7` and fails with `ByteConversionError`
whenever `header.component_count > 7`. -/
theorem claim_C7 :
    (∀ v : FwUpdateOffer, v.toBytes.length = 32)
    ∧ (∀ v : FwUpdateOfferInformation, v.toBytes.length = 16)
    ∧ (∀ v : FwUpdateOfferExtended, v.toBytes.length = 16)
    ∧ (∀ v : FwUpdateOfferResponse, v.toBytes.length = 16)
    ∧ (∀ v : FwUpdateContentCommand, v.data.length = DEFAULT_DATA_LENGTH →
        v.toBytes.length = 60)
    ∧ (∀ v : FwUpdateContentResponse, v.toBytes.length = 16)
    ∧ (∀ v : GetFwVersionResponse, v.header.component_count ≤ MAX_CMPT_COUNT →
        ∃ bs, v.toBytes = .ok bs ∧ bs.length = 60)
    ∧ (∀ v : GetFwVersionResponse, v.header.component_count > MAX_CMPT_COUNT →
        v.toBytes = .error .ByteConversionError) := by
  refine ⟨?_, ?_, ?_, ?_, ?_, ?_, ?_, ?_⟩
  · intro v
    simp [FwUpdateOffer.toBytes, le16, le32]
  · intro v
    simp [FwUpdateOfferInformation.toBytes]
  · intro v
    simp [FwUpdateOfferExtended.toBytes]
  · intro v
    simp [FwUpdateOfferResponse.toBytes]
  · intro v hv
    simp [FwUpdateContentCommand.toBytes, le16, le32, hv, DEFAULT_DATA_LENGTH]
  · intro v
    simp [FwUpdateContentResponse.toBytes, le16]
  · intro v hv
    unfold GetFwVersionResponse.toBytes
    rw [if_pos hv]
    refine ⟨_, rfl, ?_⟩
    unfold MAX_CMPT_COUNT at hv
    have h7 : MAX_CMPT_COUNT = 7 := rfl
    interval_cases hc : v.header.component_count <;>
      simp [h7, hc, List.ofFn_succ, FwVerComponentInfo.toBytes, le16]
  · intro v hv
    unfold GetFwVersionResponse.toBytes
    rw [if_neg (by omega)]

/-- Witness for C7: a content command with a full 52-byte payload serializes
to 60 bytes, and a `GetFwVersionResponse` with `component_count = 3`
serializes successfully to 60 bytes. -/
theorem claim_C7_witness :
    { header := { flags := 0x80, data_length := 52, sequence_num := 0,
                  firmware_address := 0 }
      data := List.replicate 52 1 : FwUpdateContentCommand }.toBytes.length = 60
    ∧ ∃ bs, GetFwVersionResponse.toBytes
        { header := GetFwVersionResponseHeader.new 3 .NoSpecialFlags
          component_info := fun _ => FwVerComponentInfo.default } = .ok bs
        ∧ bs.length = 60 :=
  ⟨claim_C7.2.2.2.2.1 _ (by decide),
   claim_C7.2.2.2.2.2.2.1 _ (by decide)⟩

/-- C6 for `FwUpdateOffer` (32-byte buffers, reserved = bytes 16..31). -/
theorem c6_FwUpdateOffer (b0 b1 b2 b3 b4 b5 b6 b7 b8 b9 b10 b11 b12 b13 b14 b15 : Nat)
    (rest : List Nat) (hrest : rest.length = 16)
    (hb : b0 < 256 ∧ b1 < 256 ∧ b2 < 256 ∧ b3 < 256 ∧ b4 < 256 ∧ b5 < 256 ∧ b6 < 256
      ∧ b7 < 256 ∧ b8 < 256 ∧ b9 < 256 ∧ b10 < 256 ∧ b11 < 256 ∧ b12 < 256 ∧ b13 < 256
      ∧ b14 < 256 ∧ b15 < 256) :
    ∃ v, FwUpdateOffer.fromBytes (b0 :: b1 :: b2 :: b3 :: b4 :: b5 :: b6 :: b7 :: b8 ::
        b9 :: b10 :: b11 :: b12 :: b13 :: b14 :: b15 :: rest) = .ok v
      ∧ v.toBytes = [b0, b1, b2, b3, b4, b5, b6, b7, b8, b9, b10, b11, b12, b13, b14, b15]
          ++ List.replicate 16 0 := by
  obtain ⟨t, ht⟩ := hostToken_tryFrom_isOk b3
  have htb := hostToken_toByte_tryFrom ht
  refine ⟨⟨⟨b0, ⟨b1⟩, b2, t⟩, ⟨b4, fromLe16 b5 b6, b7⟩, fromLe32 b8 b9 b10 b11,
    fromLe32 b12 b13 b14 b15⟩, ?_, ?_⟩
  · have hstep : FwUpdateOffer.fromBytes (b0 :: b1 :: b2 :: b3 :: b4 :: b5 :: b6 :: b7 ::
        b8 :: b9 :: b10 :: b11 :: b12 :: b13 :: b14 :: b15 :: rest) =
        match HostToken.tryFrom b3 with
        | .error _ => .error .ByteConversionError
        | .ok token =>
          .ok ⟨⟨b0, ⟨b1⟩, b2, token⟩, ⟨b4, fromLe16 b5 b6, b7⟩, fromLe32 b8 b9 b10 b11,
            fromLe32 b12 b13 b14 b15⟩ := rfl
    rw [hstep, ht]
  · unfold FwUpdateOffer.toBytes
    dsimp only
    simp only [le16, le32, fromLe16, fromLe32, List.cons_append, List.nil_append,
      List.cons.injEq, and_true, true_and, htb]
    omega

/-- C6 for `FwUpdateOfferInformation` (16-byte buffers; valid enum bytes:
byte 0 one of the three codes, byte 2 = `0xFF`). -/
theorem c6_FwUpdateOfferInformation (b0 b1 b3 : Nat) (rest : List Nat)
    (hrest : rest.length = 12) (h0 : b0 = 0x00 ∨ b0 = 0x01 ∨ b0 = 0x02) :
    ∃ v, FwUpdateOfferInformation.fromBytes (b0 :: b1 :: 0xFF :: b3 :: rest) = .ok v
      ∧ v.toBytes = [b0, 0, 0xFF, b3] ++ List.replicate 12 0 := by
  obtain ⟨t, ht⟩ := hostToken_tryFrom_isOk b3
  have htb := hostToken_toByte_tryFrom ht
  have key : ∀ code : OfferInformationCodeValues,
      FwUpdateOfferInformation.fromBytesRest (b0 :: b1 :: 0xFF :: b3 :: rest) code =
        .ok ⟨⟨code, 0, .Info, t⟩, 0, 0, 0⟩ := by
    intro code
    have hstep : FwUpdateOfferInformation.fromBytesRest (b0 :: b1 :: 0xFF :: b3 :: rest)
        code =
        match HostToken.tryFrom b3 with
        | .error e => .error e
        | .ok token => .ok ⟨⟨code, 0, .Info, token⟩, 0, 0, 0⟩ := rfl
    rw [hstep, ht]
  rcases h0 with h0 | h0 | h0 <;> subst h0
  · exact ⟨_, key .StartEntireTransaction, by
      simp [FwUpdateOfferInformation.toBytes, OfferInformationCodeValues.toByte,
        SpecialComponentIds.toByte, htb]⟩
  · exact ⟨_, key .StartOfferList, by
      simp [FwUpdateOfferInformation.toBytes, OfferInformationCodeValues.toByte,
        SpecialComponentIds.toByte, htb]⟩
  · exact ⟨_, key .EndOfferList, by
      simp [FwUpdateOfferInformation.toBytes, OfferInformationCodeValues.toByte,
        SpecialComponentIds.toByte, htb]⟩

/-- C6 for `FwUpdateOfferExtended` (16-byte buffers; byte 0 decodes totally,
byte 2 = `0xFE`). -/
theorem c6_FwUpdateOfferExtended (b0 b1 b3 : Nat) (rest : List Nat)
    (hrest : rest.length = 12) :
    ∃ v, FwUpdateOfferExtended.fromBytes (b0 :: b1 :: 0xFE :: b3 :: rest) = .ok v
      ∧ v.toBytes = [b0, 0, 0xFE, b3] ++ List.replicate 12 0 := by
  obtain ⟨t, ht⟩ := hostToken_tryFrom_isOk b3
  have htb := hostToken_toByte_tryFrom ht
  have hstep : FwUpdateOfferExtended.fromBytes (b0 :: b1 :: 0xFE :: b3 :: rest) =
      match HostToken.tryFrom b3 with
      | .error e => .error e
      | .ok token =>
        .ok ⟨⟨OfferCommandExtendedCodeValues.ofByte b0, 0, .Command, token⟩, 0, 0, 0⟩ :=
    rfl
  refine ⟨_, by rw [hstep, ht], ?_⟩
  simp [FwUpdateOfferExtended.toBytes, SpecialComponentIds.toByte,
    extendedCode_toByte_ofByte, htb]

/-- C6 for `FwUpdateOfferResponse` (16-byte buffers; valid enum bytes:
reject reason named or `0xE0..`, status in the defined set). -/
theorem c6_FwUpdateOfferResponse (b0 b1 b2 b3 b4 b5 b6 b7 b8 b9 b10 b11 b12 b13 b14 b15 : Nat)
    (h8 : b8 = 0x00 ∨ b8 = 0x01 ∨ b8 = 0x02 ∨ 0xE0 ≤ b8)
    (h12 : b12 = 0x00 ∨ b12 = 0x01 ∨ b12 = 0x02 ∨ b12 = 0x03 ∨ b12 = 0x04 ∨ b12 = 0xFF) :
    ∃ v, FwUpdateOfferResponse.fromBytes [b0, b1, b2, b3, b4, b5, b6, b7, b8, b9, b10,
        b11, b12, b13, b14, b15] = .ok v
      ∧ v.toBytes = [0, 0, 0, b3, 0, 0, 0, 0, b8, 0, 0, 0, b12, 0, 0, 0] := by
  obtain ⟨t, ht⟩ := hostToken_tryFrom_isOk b3
  have htb := hostToken_toByte_tryFrom ht
  obtain ⟨rr, hrr⟩ := offerRejectReason_tryFrom_isOk b8 h8
  have hrrb := offerRejectReason_toByte_tryFrom hrr
  obtain ⟨st, hst⟩ := offerStatus_tryFrom_isOk b12 h12
  have hstb := offerStatus_toByte_tryFrom hst
  have hstep : FwUpdateOfferResponse.fromBytes [b0, b1, b2, b3, b4, b5, b6, b7, b8, b9,
      b10, b11, b12, b13, b14, b15] =
      match HostToken.tryFrom b3 with
      | .error _ => .error .ByteConversionError
      | .ok token =>
        match OfferRejectReason.tryFrom b8 with
        | .error _ => .error .ByteConversionError
        | .ok reject_reason =>
          match OfferStatus.tryFrom b12 with
          | .error _ => .error .ByteConversionError
          | .ok status =>
            .ok ⟨List.replicate 3 0, token, List.replicate 4 0, reject_reason,
              List.replicate 3 0, status, List.replicate 3 0⟩ := rfl
  refine ⟨_, by rw [hstep, ht, hrr, hst], ?_⟩
  simp [FwUpdateOfferResponse.toBytes, htb, hrrb, hstb]

/-- C6 for `FwUpdateContentCommand` (60-byte buffers; no enum bytes, no
reserved bytes: the full identity). -/
theorem c6_FwUpdateContentCommand (b0 b1 b2 b3 b4 b5 b6 b7 : Nat) (data : List Nat)
    (hlen : data.length = 52)
    (hb : b0 < 256 ∧ b1 < 256 ∧ b2 < 256 ∧ b3 < 256 ∧ b4 < 256 ∧ b5 < 256 ∧ b6 < 256
      ∧ b7 < 256) :
    ∃ v, FwUpdateContentCommand.fromBytes (b0 :: b1 :: b2 :: b3 :: b4 :: b5 :: b6 :: b7 ::
        data) = .ok v
      ∧ v.toBytes = b0 :: b1 :: b2 :: b3 :: b4 :: b5 :: b6 :: b7 :: data := by
  refine ⟨⟨⟨b0, b1, fromLe16 b2 b3, fromLe32 b4 b5 b6 b7⟩, data⟩, rfl, ?_⟩
  unfold FwUpdateContentCommand.toBytes
  dsimp only
  simp only [le16, le32, fromLe16, fromLe32, List.cons_append, List.nil_append,
    List.cons.injEq, and_true, true_and]
  omega

/-- C6 for `FwUpdateContentResponse` (16-byte buffers; valid enum byte:
status `0x00..0x0B`). -/
theorem c6_FwUpdateContentResponse (b0 b1 b2 b3 b4 b5 b6 b7 b8 b9 b10 b11 b12 b13 b14
    b15 : Nat) (hb : b0 < 256 ∧ b1 < 256) (h4 : b4 ≤ 0x0B) :
    ∃ v, FwUpdateContentResponse.fromBytes [b0, b1, b2, b3, b4, b5, b6, b7, b8, b9, b10,
        b11, b12, b13, b14, b15] = .ok v
      ∧ v.toBytes = [b0, b1, 0, 0, b4, 0, 0, 0, 0, 0, 0, 0, 0, 0, 0, 0] := by
  obtain ⟨st, hst⟩ := contentStatus_tryFrom_isOk b4 h4
  have hstb := contentStatus_toByte_tryFrom hst
  have hstep : FwUpdateContentResponse.fromBytes [b0, b1, b2, b3, b4, b5, b6, b7, b8, b9,
      b10, b11, b12, b13, b14, b15] =
      match CfuUpdateContentResponseStatus.tryFrom b4 with
      | .error _ => .error .ByteConversionError
      | .ok status => .ok ⟨fromLe16 b0 b1, 0, status, List.replicate 11 0⟩ := rfl
  refine ⟨_, by rw [hstep, hst], ?_⟩
  unfold FwUpdateContentResponse.toBytes
  dsimp only
  simp only [le16, fromLe16, List.cons_append, List.nil_append, List.cons.injEq,
    and_true, true_and, hstb, List.replicate]
  omega


set_option maxHeartbeats 3200000 in
/-- C6 for `GetFwVersionResponse` (60-byte buffers; `component_count ≤ 7`,
protocol byte `0x20`/`0x21`), AS AMENDED: decoding succeeds whatever the
reserved and unused bytes hold, but the header's reserved word (bytes 1-2)
is NOT zeroed — the decoder stores the wire value and the encoder writes it
back — while the bytes beyond the `component_count` entries re-encode as
zero. -/
theorem c6_GetFwVersionResponse (c0 c1 c2 c3 c4 c5 c6 c7 c8 c9 c10 c11 c12 c13 c14 c15 c16 c17 c18 c19 c20 c21 c22 c23 c24 c25 c26 c27 c28 c29 c30 c31 c32 c33 c34 c35 c36 c37 c38 c39 c40 c41 c42 c43 c44 c45 c46 c47 c48 c49 c50 c51 c52 c53 c54 c55 c56 c57 c58 c59 : Nat)
    (h0 : c0 ≤ 7) (h3 : c3 = 0x20 ∨ c3 = 0x21)
    (hb : c1 < 256 ∧ c2 < 256 ∧ c4 < 256 ∧ c5 < 256 ∧ c6 < 256 ∧ c7 < 256 ∧ c8 < 256 ∧ c9 < 256 ∧ c10 < 256 ∧ c11 < 256 ∧ c12 < 256 ∧ c13 < 256 ∧ c14 < 256 ∧ c15 < 256 ∧ c16 < 256 ∧ c17 < 256 ∧ c18 < 256 ∧ c19 < 256 ∧ c20 < 256 ∧ c21 < 256 ∧ c22 < 256 ∧ c23 < 256 ∧ c24 < 256 ∧ c25 < 256 ∧ c26 < 256 ∧ c27 < 256 ∧ c28 < 256 ∧ c29 < 256 ∧ c30 < 256 ∧ c31 < 256 ∧ c32 < 256 ∧ c33 < 256 ∧ c34 < 256 ∧ c35 < 256 ∧ c36 < 256 ∧ c37 < 256 ∧ c38 < 256 ∧ c39 < 256 ∧ c40 < 256 ∧ c41 < 256 ∧ c42 < 256 ∧ c43 < 256 ∧ c44 < 256 ∧ c45 < 256 ∧ c46 < 256 ∧ c47 < 256 ∧ c48 < 256 ∧ c49 < 256 ∧ c50 < 256 ∧ c51 < 256 ∧ c52 < 256 ∧ c53 < 256 ∧ c54 < 256 ∧ c55 < 256 ∧ c56 < 256 ∧ c57 < 256 ∧ c58 < 256 ∧ c59 < 256) :
    ∃ r, GetFwVersionResponse.fromBytes [c0, c1, c2, c3, c4, c5, c6, c7, c8, c9, c10, c11, c12, c13, c14, c15, c16, c17, c18, c19, c20, c21, c22, c23, c24, c25, c26, c27, c28, c29, c30, c31, c32, c33, c34, c35, c36, c37, c38, c39, c40, c41, c42, c43, c44, c45, c46, c47, c48, c49, c50, c51, c52, c53, c54, c55, c56, c57, c58, c59] = .ok r
      ∧ r.header._reserved = fromLe16 c1 c2
      ∧ GetFwVersionResponse.toBytes r =
          .ok (([c0, c1, c2, c3, c4, c5, c6, c7, c8, c9, c10, c11, c12, c13, c14, c15, c16, c17, c18, c19, c20, c21, c22, c23, c24, c25, c26, c27, c28, c29, c30, c31, c32, c33, c34, c35, c36, c37, c38, c39, c40, c41, c42, c43, c44, c45, c46, c47, c48, c49, c50, c51, c52, c53, c54, c55, c56, c57, c58, c59] : List Nat).take (4 + 8 * c0)
            ++ List.replicate (56 - 8 * c0) 0) := by
  rcases h3 with h3 | h3 <;> subst h3 <;> interval_cases c0 <;> (
    refine ⟨_, rfl, rfl, ?_⟩
    simp only [GetFwVersionResponse.fromBytes, GetFwVersionResponse.fromBytesRest,
      GetFwVersionResponse.toBytes, GetFwVerRespHeaderByte3.toByte,
      FwVerComponentInfo.toBytes, FwVerComponentInfo.parseAt, FwVerComponentInfo.default,
      FwVersion.default, List.ofFn_succ, List.ofFn_zero, List.take, List.flatten_cons,
      List.flatten_nil, le16, fromLe16, MAX_CMPT_COUNT, byteAt, List.cons_append,
      List.nil_append, List.getD_cons_zero, List.getD_cons_succ, List.replicate,
      List.cons.injEq, and_true, true_and, Nat.reduceLeDiff, Nat.reduceLT, reduceIte,
      Except.ok.injEq]
    omega)


/-- C6 (amended): for every fixed-width frame buffer with valid enum bytes,
decoding succeeds regardless of the contents of reserved bytes, the decoded
frame stores zero for every reserved field, and re-encoding yields the
buffer back on non-reserved bytes with zeros on reserved bytes — EXCEPT for
`GetFwVersionResponse`, whose header reserved word (bytes 1-2) is preserved,
not zeroed: the decoder stores the wire value in `header._reserved` and the
encoder writes that value back.  (Bytes past the `component_count` entries
are ignored on decode and re-encode as zero.) -/
theorem claim_C6 :
    (∀ b0 b1 b2 b3 b4 b5 b6 b7 b8 b9 b10 b11 b12 b13 b14 b15 : Nat, ∀ rest : List Nat,
      rest.length = 16 →
      b0 < 256 ∧ b1 < 256 ∧ b2 < 256 ∧ b3 < 256 ∧ b4 < 256 ∧ b5 < 256 ∧ b6 < 256
        ∧ b7 < 256 ∧ b8 < 256 ∧ b9 < 256 ∧ b10 < 256 ∧ b11 < 256 ∧ b12 < 256
        ∧ b13 < 256 ∧ b14 < 256 ∧ b15 < 256 →
      ∃ v, FwUpdateOffer.fromBytes (b0 :: b1 :: b2 :: b3 :: b4 :: b5 :: b6 :: b7 :: b8 ::
          b9 :: b10 :: b11 :: b12 :: b13 :: b14 :: b15 :: rest) = .ok v
        ∧ v.toBytes = [b0, b1, b2, b3, b4, b5, b6, b7, b8, b9, b10, b11, b12, b13, b14,
            b15] ++ List.replicate 16 0)
    ∧ (∀ b0 b1 b3 : Nat, ∀ rest : List Nat, rest.length = 12 →
        b0 = 0x00 ∨ b0 = 0x01 ∨ b0 = 0x02 →
      ∃ v, FwUpdateOfferInformation.fromBytes (b0 :: b1 :: 0xFF :: b3 :: rest) = .ok v
        ∧ v.toBytes = [b0, 0, 0xFF, b3] ++ List.replicate 12 0)
    ∧ (∀ b0 b1 b3 : Nat, ∀ rest : List Nat, rest.length = 12 →
      ∃ v, FwUpdateOfferExtended.fromBytes (b0 :: b1 :: 0xFE :: b3 :: rest) = .ok v
        ∧ v.toBytes = [b0, 0, 0xFE, b3] ++ List.replicate 12 0)
    ∧ (∀ b0 b1 b2 b3 b4 b5 b6 b7 b8 b9 b10 b11 b12 b13 b14 b15 : Nat,
        b8 = 0x00 ∨ b8 = 0x01 ∨ b8 = 0x02 ∨ 0xE0 ≤ b8 →
        b12 = 0x00 ∨ b12 = 0x01 ∨ b12 = 0x02 ∨ b12 = 0x03 ∨ b12 = 0x04 ∨ b12 = 0xFF →
      ∃ v, FwUpdateOfferResponse.fromBytes [b0, b1, b2, b3, b4, b5, b6, b7, b8, b9, b10,
          b11, b12, b13, b14, b15] = .ok v
        ∧ v.toBytes = [0, 0, 0, b3, 0, 0, 0, 0, b8, 0, 0, 0, b12, 0, 0, 0])
    ∧ (∀ b0 b1 b2 b3 b4 b5 b6 b7 : Nat, ∀ data : List Nat, data.length = 52 →
        b0 < 256 ∧ b1 < 256 ∧ b2 < 256 ∧ b3 < 256 ∧ b4 < 256 ∧ b5 < 256 ∧ b6 < 256
          ∧ b7 < 256 →
      ∃ v, FwUpdateContentCommand.fromBytes (b0 :: b1 :: b2 :: b3 :: b4 :: b5 :: b6 ::
          b7 :: data) = .ok v
        ∧ v.toBytes = b0 :: b1 :: b2 :: b3 :: b4 :: b5 :: b6 :: b7 :: data)
    ∧ (∀ b0 b1 b2 b3 b4 b5 b6 b7 b8 b9 b10 b11 b12 b13 b14 b15 : Nat,
        b0 < 256 ∧ b1 < 256 → b4 ≤ 0x0B →
      ∃ v, FwUpdateContentResponse.fromBytes [b0, b1, b2, b3, b4, b5, b6, b7, b8, b9,
          b10, b11, b12, b13, b14, b15] = .ok v
        ∧ v.toBytes = [b0, b1, 0, 0, b4, 0, 0, 0, 0, 0, 0, 0, 0, 0, 0, 0])
    ∧ (∀ c0 c1 c2 c3 c4 c5 c6 c7 c8 c9 c10 c11 c12 c13 c14 c15 c16 c17 c18 c19 c20 c21 c22 c23 c24 c25 c26 c27 c28 c29 c30 c31 c32 c33 c34 c35 c36 c37 c38 c39 c40 c41 c42 c43 c44 c45 c46 c47 c48 c49 c50 c51 c52 c53 c54 c55 c56 c57 c58 c59 : Nat, c0 ≤ 7 → c3 = 0x20 ∨ c3 = 0x21 →
        c1 < 256 ∧ c2 < 256 ∧ c4 < 256 ∧ c5 < 256 ∧ c6 < 256 ∧ c7 < 256 ∧ c8 < 256 ∧ c9 < 256 ∧ c10 < 256 ∧ c11 < 256 ∧ c12 < 256 ∧ c13 < 256 ∧ c14 < 256 ∧ c15 < 256 ∧ c16 < 256 ∧ c17 < 256 ∧ c18 < 256 ∧ c19 < 256 ∧ c20 < 256 ∧ c21 < 256 ∧ c22 < 256 ∧ c23 < 256 ∧ c24 < 256 ∧ c25 < 256 ∧ c26 < 256 ∧ c27 < 256 ∧ c28 < 256 ∧ c29 < 256 ∧ c30 < 256 ∧ c31 < 256 ∧ c32 < 256 ∧ c33 < 256 ∧ c34 < 256 ∧ c35 < 256 ∧ c36 < 256 ∧ c37 < 256 ∧ c38 < 256 ∧ c39 < 256 ∧ c40 < 256 ∧ c41 < 256 ∧ c42 < 256 ∧ c43 < 256 ∧ c44 < 256 ∧ c45 < 256 ∧ c46 < 256 ∧ c47 < 256 ∧ c48 < 256 ∧ c49 < 256 ∧ c50 < 256 ∧ c51 < 256 ∧ c52 < 256 ∧ c53 < 256 ∧ c54 < 256 ∧ c55 < 256 ∧ c56 < 256 ∧ c57 < 256 ∧ c58 < 256 ∧ c59 < 256 →
      ∃ r, GetFwVersionResponse.fromBytes [c0, c1, c2, c3, c4, c5, c6, c7, c8, c9, c10, c11, c12, c13, c14, c15, c16, c17, c18, c19, c20, c21, c22, c23, c24, c25, c26, c27, c28, c29, c30, c31, c32, c33, c34, c35, c36, c37, c38, c39, c40, c41, c42, c43, c44, c45, c46, c47, c48, c49, c50, c51, c52, c53, c54, c55, c56, c57, c58, c59] = .ok r
        ∧ r.header._reserved = fromLe16 c1 c2
        ∧ GetFwVersionResponse.toBytes r =
            .ok (([c0, c1, c2, c3, c4, c5, c6, c7, c8, c9, c10, c11, c12, c13, c14, c15, c16, c17, c18, c19, c20, c21, c22, c23, c24, c25, c26, c27, c28, c29, c30, c31, c32, c33, c34, c35, c36, c37, c38, c39, c40, c41, c42, c43, c44, c45, c46, c47, c48, c49, c50, c51, c52, c53, c54, c55, c56, c57, c58, c59] : List Nat).take (4 + 8 * c0)
              ++ List.replicate (56 - 8 * c0) 0)) :=
  ⟨c6_FwUpdateOffer, c6_FwUpdateOfferInformation, c6_FwUpdateOfferExtended,
   c6_FwUpdateOfferResponse, c6_FwUpdateContentCommand, c6_FwUpdateContentResponse,
   c6_GetFwVersionResponse⟩

/-- C6 counterexample: the claim says the decoded frame stores ZERO for
every reserved field and re-encodes reserved bytes as zero, but decoding a
60-byte `GetFwVersionResponse` buffer whose reserved header bytes 1-2 hold
`9, 9` yields `header._reserved = 0x0909 = 2313 ≠ 0`, and re-encoding
writes byte 1 back as `9`, not `0`. -/
theorem claim_C6_counterexample :
    ∃ r, GetFwVersionResponse.fromBytes
        ((1 : Nat) :: 9 :: 9 :: 0x21 :: List.replicate 56 0) = .ok r
      ∧ r.header._reserved ≠ 0
      ∧ ∃ bs, GetFwVersionResponse.toBytes r = .ok bs ∧ byteAt bs 1 = 9 :=
  ⟨_, rfl, by decide, _, rfl, rfl⟩

/-- Witness for C6 at a concrete buffer: an offer-information frame whose
reserved bytes hold junk (`0xAB`, `0xCD`) still decodes, and re-encodes with
all reserved bytes zero. -/
theorem claim_C6_witness :
    ∃ v, FwUpdateOfferInformation.fromBytes
        ((0x00 : Nat) :: 0xAB :: 0xFF :: 0xB0 :: List.replicate 12 0xCD) = .ok v
      ∧ v.toBytes = [0x00, 0, 0xFF, 0xB0] ++ List.replicate 12 0 :=
  claim_C6.2.1 0x00 0xAB 0xB0 (List.replicate 12 0xCD) (by decide) (Or.inl rfl)


end EmbeddedCfu
